import Mathlib

/-!
Shallow embedding of the polymarket-btc trading core: the deterministic
backtest replay engine from src/backtest/engine.ts, and the live bot's
ladder stop-loss path with its per-token exit guard from bot.ts.

Conventions of the embedding:
* prices, balances and share counts (JS numbers) are rationals;
* timestamps (JS epoch milliseconds, Date.getTime / Date.now) are integers;
* Date.now() is modelled by an explicit parameter dateNow, fixed per run,
  so that independence of the results from the wall clock is provable;
* Math.sqrt, used only inside the Sharpe-ratio metric, is modelled by an
  explicit function parameter sqrtQ;
* JS Set / Map values are association lists with set/map semantics
  (add-if-absent, last-insert-wins lookup where the source builds a Map);
* the live trader's fallible calls (marketSell, getBalance) are modelled
  by Option-valued oracle parameters: none is the failure/null outcome.
-/

inductive Side
  | UP
  | DOWN
deriving DecidableEq, Repr

inductive StepPhase
  | buy
  | sell
deriving DecidableEq, Repr

inductive LadderStatus
  | active
  | completed
  | stopped
deriving DecidableEq, Repr

inductive SizeType
  | percent
  | fixed
deriving DecidableEq, Repr

/-- Risk modes of the bot configuration; the backtest engine only ever
tests whether the mode is `ladder`. -/
inductive RiskMode
  | normal
  | superRisk
  | safe
  | dynamicRisk
  | ladder
deriving DecidableEq, Repr

/-- config.ts LadderStepSideConfig: one side (buy or sell) of a ladder step. -/
structure LadderStepSideConfig where
  triggerPrice : ℚ
  sizeType : SizeType
  sizeValue : ℚ
deriving DecidableEq, Repr

/-- config.ts LadderStep: one rung of the ladder. -/
structure LadderStep where
  id : String
  stopLoss : ℚ
  buy : LadderStepSideConfig
  sell : LadderStepSideConfig
  enabled : Bool
deriving DecidableEq, Repr

/-- backtest/types.ts PriceTick. -/
structure PriceTick where
  timestamp : ℤ
  tokenId : String
  marketSlug : String
  bestBid : ℚ
  bestAsk : ℚ
  midPrice : ℚ
deriving DecidableEq, Repr

/-- backtest/types.ts HistoricalMarket; endDate is endDate.getTime(). -/
structure HistoricalMarket where
  slug : String
  question : String
  startDate : ℤ
  endDate : ℤ
  upTokenId : String
  downTokenId : String
  outcome : Option Side
  priceTicks : List PriceTick
deriving DecidableEq, Repr

/-- backtest/types.ts SimulatedPosition (the dynamic-risk-only optional
field dynamicStopLoss is never used by the engine paths embedded here). -/
structure SimulatedPosition where
  tokenId : String
  marketSlug : String
  side : Side
  shares : ℚ
  entryPrice : ℚ
  entryTimestamp : ℤ
deriving DecidableEq, Repr

/-- Exit reasons. engine.ts also emits the two ladder reasons
LADDER_STEP_SELL and LADDER_STOP_LOSS as literal strings, so they are
constructors here alongside the ExitReason union of types.ts. -/
inductive ExitReason
  | PROFIT_TARGET
  | STOP_LOSS
  | MARKET_RESOLVED
  | TIME_EXIT
  | LADDER_STEP_SELL
  | LADDER_STOP_LOSS
deriving DecidableEq, Repr

/-- backtest/types.ts BacktestTrade (ladderStepId is the extra field the
engine attaches to ladder trades). -/
structure BacktestTrade where
  marketSlug : String
  tokenId : String
  side : Side
  entryPrice : ℚ
  exitPrice : ℚ
  shares : ℚ
  entryTimestamp : ℤ
  exitTimestamp : ℤ
  exitReason : ExitReason
  pnl : ℚ
  ladderStepId : Option String
deriving DecidableEq, Repr

/-- engine.ts EquityPoint. -/
structure EquityPoint where
  timestamp : ℤ
  balance : ℚ
deriving DecidableEq, Repr

/-- engine.ts DrawdownPoint. -/
structure DrawdownPoint where
  timestamp : ℤ
  drawdown : ℚ
deriving DecidableEq, Repr

/-- backtest/types.ts BacktestConfig. ladderSteps is the optional field
read by the engine as `this.config.ladderSteps ?? []`; the empty list
models its absence. startDate/endDate of the simulation window are not
read by the engine itself and are omitted. -/
structure BacktestConfig where
  entryThreshold : ℚ
  maxEntryPrice : ℚ
  stopLoss : ℚ
  maxSpread : ℚ
  timeWindowMs : ℤ
  profitTarget : ℚ
  startingBalance : ℚ
  slippage : ℚ
  compoundLimit : ℚ
  baseBalance : ℚ
  riskMode : RiskMode
  ladderSteps : List LadderStep
deriving DecidableEq, Repr

namespace BacktestEngine

/-- engine.ts LadderState (the in-engine simulation ladder). -/
structure LadderState where
  tokenId : String
  side : Side
  marketSlug : String
  marketEndDate : ℤ
  currentStepIndex : ℕ
  currentStepPhase : StepPhase
  completedSteps : List String
  skippedSteps : List String
  skippedReasons : List (String × String)
  totalShares : ℚ
  totalCostBasis : ℚ
  averageEntryPrice : ℚ
  totalSharesSold : ℚ
  totalSellProceeds : ℚ
  ladderStartTime : ℤ
  lastStepTime : ℤ
  lastStepPrice : ℚ
  needsRecovery : Bool
  status : LadderStatus
deriving DecidableEq, Repr

/-- The mutable fields of the BacktestEngine class that the run loop
threads through tick processing. currentMarket is assigned but never
read by the source and is omitted. -/
structure EngineState where
  balance : ℚ
  savedProfit : ℚ
  position : Option SimulatedPosition
  ladderState : Option LadderState
  ladderMarketLocks : List String
  trades : List BacktestTrade
  equityCurve : List EquityPoint
  peakBalance : ℚ
  lastTrade : Option BacktestTrade
deriving DecidableEq, Repr

/-- engine.ts checkCompoundLimit: move excess above baseBalance into
savedProfit when the balance exceeds a positive compoundLimit. -/
def checkCompoundLimit (config : BacktestConfig) (s : EngineState) : EngineState :=
  if config.compoundLimit ≤ 0 then s
  else if s.balance ≤ config.compoundLimit then s
  else
    { s with savedProfit := s.savedProfit + (s.balance - config.baseBalance),
             balance := config.baseBalance }

/-- engine.ts executeEntry: slippage-adjusted entry, all-in sizing. -/
def executeEntry (config : BacktestConfig) (tick : PriceTick) (market : HistoricalMarket)
    (side : Side) (s : EngineState) : EngineState :=
  let entryPrice := min (tick.bestAsk * (1 + config.slippage)) 0.99
  let shares := s.balance / entryPrice
  { s with
    position := some {
      tokenId := tick.tokenId
      marketSlug := market.slug
      side := side
      shares := shares
      entryPrice := entryPrice
      entryTimestamp := tick.timestamp }
    balance := 0 }

/-- engine.ts executeExit: close the open position at exitPrice
(slippage-adjusted for stop-loss exits), record the trade and the equity
point, then apply the compounding sweep. -/
def executeExit (config : BacktestConfig) (exitPrice : ℚ) (exitTimestamp : ℤ)
    (exitReason : ExitReason) (s : EngineState) : EngineState :=
  match s.position with
  | none => s
  | some position =>
    let finalExitPrice :=
      if exitReason = ExitReason.STOP_LOSS then
        max (exitPrice * (1 - config.slippage)) 0.01
      else exitPrice
    let pnl := (finalExitPrice - position.entryPrice) * position.shares
    let trade : BacktestTrade := {
      marketSlug := position.marketSlug
      tokenId := position.tokenId
      side := position.side
      entryPrice := position.entryPrice
      exitPrice := finalExitPrice
      shares := position.shares
      entryTimestamp := position.entryTimestamp
      exitTimestamp := exitTimestamp
      exitReason := exitReason
      pnl := pnl
      ladderStepId := none }
    let proceeds := finalExitPrice * position.shares
    let s1 : EngineState := { s with
      trades := s.trades ++ [trade]
      lastTrade := some trade
      balance := proceeds
      equityCurve := s.equityCurve ++ [{ timestamp := exitTimestamp, balance := proceeds }]
      peakBalance := if proceeds > s.peakBalance then proceeds else s.peakBalance
      position := none }
    checkCompoundLimit config s1

/-- engine.ts checkStopLoss: immediate exit at bid once bid ≤ stopLoss. -/
def checkStopLoss (config : BacktestConfig) (tick : PriceTick) (s : EngineState) : EngineState :=
  match s.position with
  | none => s
  | some _ =>
    if tick.bestBid ≤ config.stopLoss then
      executeExit config tick.bestBid tick.timestamp ExitReason.STOP_LOSS s
    else s

/-- Which side a tick's token is on: `tick.tokenId === market.upTokenId`. -/
def sideFor (tick : PriceTick) (market : HistoricalMarket) : Side :=
  if tick.tokenId = market.upTokenId then Side.UP else Side.DOWN

/-- The opposite-side suppression test of engine.ts checkEntry and
processLadderTick: the last recorded trade was in the same market, on the
same side, and had positive PnL. -/
def isLastTradeWin (lastTrade : Option BacktestTrade) (slug : String) (side : Side) : Bool :=
  match lastTrade with
  | some lt => decide (lt.marketSlug = slug) && decide (lt.side = side) && decide (0 < lt.pnl)
  | none => false

/-- engine.ts checkEntry: normal-mode entry filter and entry execution. -/
def checkEntry (config : BacktestConfig) (tick : PriceTick) (market : HistoricalMarket)
    (s : EngineState) : EngineState :=
  let timeRemaining := market.endDate - tick.timestamp
  if timeRemaining ≤ 0 ∨ timeRemaining > config.timeWindowMs then s
  else
    let side := sideFor tick market
    if tick.bestAsk - tick.bestBid > config.maxSpread then s
    else if tick.bestAsk < config.entryThreshold ∨ tick.bestAsk > config.maxEntryPrice then s
    else if tick.bestAsk ≥ config.profitTarget then s
    else if isLastTradeWin s.lastTrade market.slug side then s
    else executeEntry config tick market side s

/-- engine.ts isLadderMarketLocked / lockLadderMarket (Set.add). -/
def lockLadderMarket (marketSlug : String) (locks : List String) : List String :=
  if marketSlug ∈ locks then locks else locks ++ [marketSlug]

/-- engine.ts clearLadderMarketLock (Set.delete). -/
def clearLadderMarketLock (marketSlug : String) (locks : List String) : List String :=
  locks.filter (fun m => decide (m ≠ marketSlug))

/-- engine.ts initializeLadderState: fresh ladder; `now` is Date.now(). -/
def initializeLadderState (dateNow : ℤ) (tokenId : String) (side : Side)
    (marketSlug : String) (marketEndDate : ℤ) : LadderState :=
  { tokenId := tokenId
    side := side
    marketSlug := marketSlug
    marketEndDate := marketEndDate
    currentStepIndex := 0
    currentStepPhase := StepPhase.buy
    completedSteps := []
    skippedSteps := []
    skippedReasons := []
    totalShares := 0
    totalCostBasis := 0
    averageEntryPrice := 0
    totalSharesSold := 0
    totalSellProceeds := 0
    ladderStartTime := dateNow
    lastStepTime := dateNow
    lastStepPrice := 0
    needsRecovery := false
    status := LadderStatus.active }

/-- engine.ts getActiveStep: starting at currentStepIndex, skip disabled,
completed and skipped steps (incrementing currentStepIndex, as the source
mutates it in place) and return the first actionable step, or none. -/
def getActiveStep (ladderState : LadderState) (steps : List LadderStep) :
    LadderState × Option LadderStep :=
  if h : ladderState.currentStepIndex < steps.length then
    let step := steps.get ⟨ladderState.currentStepIndex, h⟩
    if step.enabled = false then
      getActiveStep { ladderState with currentStepIndex := ladderState.currentStepIndex + 1 } steps
    else if step.id ∈ ladderState.completedSteps then
      getActiveStep { ladderState with currentStepIndex := ladderState.currentStepIndex + 1 } steps
    else if step.id ∈ ladderState.skippedSteps then
      getActiveStep { ladderState with currentStepIndex := ladderState.currentStepIndex + 1 } steps
    else (ladderState, some step)
  else (ladderState, none)
termination_by steps.length - ladderState.currentStepIndex

/-- The forward scan of engine.ts getActiveStopLossStep (it uses a local
index and does not mutate the ladder). -/
def findStopLossStepFrom (ladderState : LadderState) (steps : List LadderStep)
    (index : ℕ) : Option LadderStep :=
  if h : index < steps.length then
    let step := steps.get ⟨index, h⟩
    if step.enabled = false then findStopLossStepFrom ladderState steps (index + 1)
    else if step.id ∈ ladderState.completedSteps ∨ step.id ∈ ladderState.skippedSteps then
      findStopLossStepFrom ladderState steps (index + 1)
    else some step
  else none
termination_by steps.length - index

/-- engine.ts getActiveStopLossStep: next actionable enabled step, or as a
fallback the last enabled step, or none. -/
def getActiveStopLossStep (ladderState : LadderState) (steps : List LadderStep) :
    Option LadderStep :=
  match findStopLossStepFrom ladderState steps ladderState.currentStepIndex with
  | some step => some step
  | none => steps.reverse.find? (fun step => step.enabled)

/-- engine.ts skipLadderStep: record the step id and reason. -/
def skipLadderStep (ladderState : LadderState) (stepId : String) (reason : String) :
    LadderState :=
  { ladderState with
    skippedSteps := ladderState.skippedSteps ++ [stepId]
    skippedReasons := ladderState.skippedReasons ++ [(stepId, reason)] }

/-- engine.ts calculateStepSize. In the sell/fixed branch the engine only
ever calls this with currentPrice = bestBid > 0 (the sell trigger and the
stop-loss path both require a positive bid), so the JS division is by a
nonzero number there. -/
def calculateStepSize (side : StepPhase) (stepConfig : LadderStepSideConfig)
    (ladderState : LadderState) (availableBalance : ℚ) (currentPrice : ℚ) : ℚ :=
  match side with
  | StepPhase.buy =>
    match stepConfig.sizeType with
    | SizeType.percent => availableBalance * (stepConfig.sizeValue / 100)
    | SizeType.fixed => min stepConfig.sizeValue availableBalance
  | StepPhase.sell =>
    let remainingShares := ladderState.totalShares - ladderState.totalSharesSold
    match stepConfig.sizeType with
    | SizeType.percent => remainingShares * (stepConfig.sizeValue / 100)
    | SizeType.fixed => min (stepConfig.sizeValue / currentPrice) remainingShares

/-- engine.ts getOpenLadderShares. -/
def getOpenLadderShares (ladderState : LadderState) : ℚ :=
  max 0 (ladderState.totalShares - ladderState.totalSharesSold)

/-- engine.ts recordLadderTrade: push the trade and an equity point at the
current (already updated) balance, and update the peak. -/
def recordLadderTrade (trade : BacktestTrade) (s : EngineState) : EngineState :=
  { s with
    trades := s.trades ++ [trade]
    lastTrade := some trade
    equityCurve := s.equityCurve ++ [{ timestamp := trade.exitTimestamp, balance := s.balance }]
    peakBalance := if s.balance > s.peakBalance then s.balance else s.peakBalance }

/-- engine.ts resetLadderState: back to step 1, aggregates zeroed, recovery
gate armed; lastStepTime is assigned Date.now(). -/
def resetLadderState (dateNow : ℤ) (ladderState : LadderState) : LadderState :=
  { ladderState with
    currentStepIndex := 0
    currentStepPhase := StepPhase.buy
    completedSteps := []
    skippedSteps := []
    skippedReasons := []
    totalShares := 0
    totalCostBasis := 0
    averageEntryPrice := 0
    totalSharesSold := 0
    totalSellProceeds := 0
    lastStepTime := dateNow
    lastStepPrice := 0
    needsRecovery := true
    status := LadderStatus.active }

/-- engine.ts executeLadderBuyStep, acting on the engine's single
ladderState field (the source passes that same object by reference). -/
def executeLadderBuyStep (config : BacktestConfig) (tick : PriceTick) (step : LadderStep)
    (s : EngineState) : EngineState :=
  match s.ladderState with
  | none => s
  | some l =>
    if step.id ∈ l.completedSteps then s
    else if step.id ∈ l.skippedSteps then s
    else
      let availableBalance := s.balance
      let buyAmount := calculateStepSize StepPhase.buy step.buy l availableBalance tick.bestAsk
      if buyAmount < 1 then
        { s with ladderState := some (
          { skipLadderStep l step.id "insufficient_balance" with
            currentStepIndex := l.currentStepIndex + 1
            currentStepPhase := StepPhase.buy }) }
      else
        let entryPrice := min (tick.bestAsk * (1 + config.slippage)) 0.99
        let shares := buyAmount / entryPrice
        let l1 : LadderState := { l with
          totalShares := l.totalShares + shares
          totalCostBasis := l.totalCostBasis + buyAmount
          averageEntryPrice := (l.totalCostBasis + buyAmount) / (l.totalShares + shares)
          lastStepTime := tick.timestamp
          lastStepPrice := tick.bestAsk
          currentStepPhase := StepPhase.sell }
        { s with ladderState := some l1, balance := s.balance - buyAmount }

/-- engine.ts executeLadderSellStep. -/
def executeLadderSellStep (config : BacktestConfig) (tick : PriceTick) (step : LadderStep)
    (s : EngineState) : EngineState :=
  match s.ladderState with
  | none => s
  | some l =>
    if step.id ∈ l.completedSteps then s
    else if step.id ∈ l.skippedSteps then s
    else
      let remainingShares := l.totalShares - l.totalSharesSold
      let sellShares := calculateStepSize StepPhase.sell step.sell l 0 tick.bestBid
      if sellShares < 0.01 ∨ remainingShares < 0.01 then
        { s with ladderState := some (
          { skipLadderStep l step.id "insufficient_shares" with
            currentStepIndex := l.currentStepIndex + 1
            currentStepPhase := StepPhase.buy }) }
      else
        let actualSellShares := min sellShares remainingShares
        let proceeds := actualSellShares * tick.bestBid
        let costBasisPortion :=
          if 0 < l.totalShares then (actualSellShares / l.totalShares) * l.totalCostBasis else 0
        let pnl := proceeds - costBasisPortion
        let trade : BacktestTrade := {
          marketSlug := l.marketSlug
          tokenId := l.tokenId
          side := l.side
          entryPrice := l.averageEntryPrice
          exitPrice := tick.bestBid
          shares := actualSellShares
          entryTimestamp := l.lastStepTime
          exitTimestamp := tick.timestamp
          exitReason := ExitReason.LADDER_STEP_SELL
          pnl := pnl
          ladderStepId := some step.id }
        let l1 : LadderState := { l with
          totalSharesSold := l.totalSharesSold + actualSellShares
          totalSellProceeds := l.totalSellProceeds + proceeds }
        let s1 := recordLadderTrade trade
          { s with ladderState := some l1, balance := s.balance + proceeds }
        let l2 : LadderState := { l1 with
          completedSteps := l1.completedSteps ++ [step.id]
          currentStepIndex := l1.currentStepIndex + 1
          currentStepPhase := StepPhase.buy
          lastStepTime := tick.timestamp
          lastStepPrice := tick.bestBid }
        let remainingAfterSell := l2.totalShares - l2.totalSharesSold
        let l3 : LadderState :=
          if remainingAfterSell < 0.01 then
            { l2 with totalShares := 0, totalCostBasis := 0, averageEntryPrice := 0,
                      totalSharesSold := 0, totalSellProceeds := 0 }
          else l2
        checkCompoundLimit config { s1 with ladderState := some l3 }

/-- engine.ts executeLadderStopLoss: sell all open shares at the
slippage-adjusted bid, record one trade, sweep, clear the market lock and
reset the ladder (or just clear and reset when no shares remain). -/
def executeLadderStopLoss (config : BacktestConfig) (dateNow : ℤ) (tick : PriceTick)
    (step : LadderStep) (s : EngineState) : EngineState :=
  match s.ladderState with
  | none => s
  | some l =>
    let openShares := getOpenLadderShares l
    if openShares < 0.01 then
      { s with
        ladderMarketLocks := clearLadderMarketLock l.marketSlug s.ladderMarketLocks
        ladderState := some (resetLadderState dateNow l) }
    else
      let exitPrice := max (tick.bestBid * (1 - config.slippage)) 0.01
      let proceeds := openShares * exitPrice
      let costBasisPortion :=
        if 0 < l.totalShares then (openShares / l.totalShares) * l.totalCostBasis else 0
      let pnl := proceeds - costBasisPortion
      let trade : BacktestTrade := {
        marketSlug := l.marketSlug
        tokenId := l.tokenId
        side := l.side
        entryPrice := l.averageEntryPrice
        exitPrice := exitPrice
        shares := openShares
        entryTimestamp := l.lastStepTime
        exitTimestamp := tick.timestamp
        exitReason := ExitReason.LADDER_STOP_LOSS
        pnl := pnl
        ladderStepId := some step.id }
      let l1 : LadderState := { l with
        totalSharesSold := l.totalSharesSold + openShares
        totalSellProceeds := l.totalSellProceeds + proceeds }
      let s1 := recordLadderTrade trade
        { s with ladderState := some l1, balance := s.balance + proceeds }
      let s2 := checkCompoundLimit config s1
      { s2 with
        ladderMarketLocks := clearLadderMarketLock l1.marketSlug s2.ladderMarketLocks
        ladderState := some (resetLadderState dateNow l1) }

/-- The tail of engine.ts processLadderStateTick after the stop-loss and
status checks: recovery gating, then step completion or buy/sell dispatch
on the next actionable step. -/
def stepDispatch (config : BacktestConfig) (tick : PriceTick) (ladderSteps : List LadderStep)
    (s : EngineState) : EngineState :=
  match s.ladderState with
  | none => s
  | some l =>
    let (l1, nextStep) := getActiveStep l ladderSteps
    let s1 : EngineState := { s with ladderState := some l1 }
    match nextStep with
    | none =>
      if l1.status = LadderStatus.active then
        let l2 : LadderState := { l1 with status := LadderStatus.completed }
        let s2 : EngineState := { s1 with
          ladderState := some l2
          ladderMarketLocks := lockLadderMarket l2.marketSlug s1.ladderMarketLocks }
        let remainingShares := l2.totalShares - l2.totalSharesSold
        if remainingShares < 0.01 then { s2 with ladderState := none } else s2
      else s1
    | some nextStep =>
      match l1.currentStepPhase with
      | StepPhase.buy =>
        if 0 < tick.bestAsk ∧ tick.bestAsk ≤ nextStep.buy.triggerPrice then
          executeLadderBuyStep config tick nextStep s1
        else s1
      | StepPhase.sell =>
        if 0 < tick.bestBid ∧ nextStep.sell.triggerPrice ≤ tick.bestBid then
          executeLadderSellStep config tick nextStep s1
        else s1

/-- Status check and recovery gating of engine.ts processLadderStateTick,
in source order, continuing into stepDispatch. -/
def ladderStepLogic (config : BacktestConfig) (tick : PriceTick) (ladderSteps : List LadderStep)
    (s : EngineState) : EngineState :=
  match s.ladderState with
  | none => s
  | some l =>
    if l.status ≠ LadderStatus.active then s
    else if l.needsRecovery then
      match ladderSteps.find? (fun st => st.enabled) with
      | some firstBuyStep =>
        if 0 < tick.bestAsk ∧ firstBuyStep.buy.triggerPrice < tick.bestAsk then
          stepDispatch config tick ladderSteps
            { s with ladderState := some { l with needsRecovery := false, lastStepTime := tick.timestamp } }
        else s
      | none => s
    else stepDispatch config tick ladderSteps s

/-- engine.ts processLadderStateTick: step stop-loss first (it requires
open shares and a positive bid at or below the active stop-loss), then
the status/recovery/step logic. -/
def processLadderStateTick (config : BacktestConfig) (dateNow : ℤ) (tick : PriceTick)
    (ladderSteps : List LadderStep) (s : EngineState) : EngineState :=
  match s.ladderState with
  | none => s
  | some l =>
    let hasShares := 0.01 < getOpenLadderShares l
    match getActiveStopLossStep l ladderSteps with
    | some stopLossStep =>
      if hasShares ∧ 0 < tick.bestBid ∧ tick.bestBid ≤ stopLossStep.stopLoss then
        executeLadderStopLoss config dateNow tick stopLossStep s
      else ladderStepLogic config tick ladderSteps s
    | none => ladderStepLogic config tick ladderSteps s

/-- engine.ts processLadderTick: route ticks to an active ladder, or run
the ladder entry filter and possibly create (and immediately trigger) a
new ladder. -/
def processLadderTick (config : BacktestConfig) (dateNow : ℤ) (tick : PriceTick)
    (market : HistoricalMarket) (s : EngineState) : EngineState :=
  let ladderSteps := config.ladderSteps
  if ladderSteps = [] then s
  else
    match s.ladderState with
    | some l =>
      if tick.tokenId ≠ l.tokenId then s
      else processLadderStateTick config dateNow tick ladderSteps s
    | none =>
      if s.balance < 1 then s
      else if market.slug ∈ s.ladderMarketLocks then s
      else
        let timeRemaining := market.endDate - tick.timestamp
        if timeRemaining ≤ 0 ∨ timeRemaining > config.timeWindowMs then s
        else if tick.bestAsk - tick.bestBid > config.maxSpread then s
        else if tick.bestAsk < config.entryThreshold ∨ tick.bestAsk > config.maxEntryPrice then s
        else
          let side := sideFor tick market
          if isLastTradeWin s.lastTrade market.slug side then s
          else
            match ladderSteps.find? (fun st => st.enabled) with
            | none => s
            | some firstEnabledStep =>
              if tick.bestAsk < firstEnabledStep.buy.triggerPrice then s
              else
                let ladderState :=
                  { initializeLadderState dateNow tick.tokenId side market.slug market.endDate with
                    lastStepPrice := tick.bestAsk
                    lastStepTime := tick.timestamp }
                let s1 : EngineState := { s with ladderState := some ladderState }
                if |tick.bestAsk - firstEnabledStep.buy.triggerPrice| ≤ 0.005 then
                  executeLadderBuyStep config tick firstEnabledStep s1
                else s1

/-- engine.ts processTick: ladder mode dispatch, otherwise exit checks for
the held position or the entry check. -/
def processTick (config : BacktestConfig) (dateNow : ℤ) (tick : PriceTick)
    (market : HistoricalMarket) (s : EngineState) : EngineState :=
  if config.riskMode = RiskMode.ladder then processLadderTick config dateNow tick market s
  else
    match s.position with
    | some position =>
      if position.tokenId = tick.tokenId then
        if tick.bestBid ≥ config.profitTarget then
          executeExit config config.profitTarget tick.timestamp ExitReason.PROFIT_TARGET s
        else checkStopLoss config tick s
      else s
    | none =>
      if s.balance ≥ 1 then checkEntry config tick market s else s

/-- engine.ts closePositionAtExpiry: resolution pricing policy, then a
MARKET_RESOLVED exit at the market end time. -/
def closePositionAtExpiry (config : BacktestConfig) (market : HistoricalMarket)
    (s : EngineState) : EngineState :=
  match s.position with
  | none => s
  | some position =>
    let exitPrice :=
      match market.outcome with
      | some o => if o = position.side then config.profitTarget else 0.01
      | none => config.profitTarget
    executeExit config exitPrice market.endDate ExitReason.MARKET_RESOLVED s

/-- engine.ts closeLadderAtExpiry: close any unsold ladder shares at the
resolution price, record one trade, sweep, and drop the ladder. -/
def closeLadderAtExpiry (config : BacktestConfig) (market : HistoricalMarket)
    (s : EngineState) : EngineState :=
  match s.ladderState with
  | none => s
  | some l =>
    let remainingShares := l.totalShares - l.totalSharesSold
    if remainingShares < 0.01 then { s with ladderState := none }
    else
      let exitPrice :=
        match market.outcome with
        | some o => if o = l.side then config.profitTarget else 0.01
        | none => config.profitTarget
      let proceeds := remainingShares * exitPrice
      let costBasisPortion :=
        if 0 < l.totalShares then (remainingShares / l.totalShares) * l.totalCostBasis else 0
      let pnl := proceeds - costBasisPortion
      let trade : BacktestTrade := {
        marketSlug := l.marketSlug
        tokenId := l.tokenId
        side := l.side
        entryPrice := l.averageEntryPrice
        exitPrice := exitPrice
        shares := remainingShares
        entryTimestamp := l.lastStepTime
        exitTimestamp := market.endDate
        exitReason := ExitReason.MARKET_RESOLVED
        pnl := pnl
        ladderStepId := none }
      let l1 : LadderState := { l with
        totalSharesSold := l.totalSharesSold + remainingShares
        totalSellProceeds := l.totalSellProceeds + proceeds }
      let s1 := recordLadderTrade trade
        { s with ladderState := some l1, balance := s.balance + proceeds }
      let s2 := checkCompoundLimit config s1
      { s2 with ladderState := none }

/-- backtest/types.ts PerformanceMetrics. profitFactor is Option-valued:
none encodes the JS Infinity returned when there is gross profit but zero
gross loss. -/
structure PerformanceMetrics where
  totalTrades : ℕ
  wins : ℕ
  losses : ℕ
  winRate : ℚ
  totalPnL : ℚ
  maxDrawdown : ℚ
  maxDrawdownPercent : ℚ
  sharpeRatio : ℚ
  profitFactor : Option ℚ
  avgWin : ℚ
  avgLoss : ℚ
  avgTradeReturn : ℚ
  maxConsecutiveWins : ℕ
  maxConsecutiveLosses : ℕ
  expectancy : ℚ
  returnOnCapital : ℚ
deriving DecidableEq, Repr

/-- backtest/types.ts BacktestResult. -/
structure BacktestResult where
  config : BacktestConfig
  metrics : PerformanceMetrics
  trades : List BacktestTrade
  equityCurve : List EquityPoint
  drawdownCurve : List DrawdownPoint
  savedProfit : ℚ
  finalBalance : ℚ
deriving DecidableEq, Repr

/-- engine.ts calculateMaxDrawdown: peak-to-trough scan of the equity
curve starting from the starting balance. -/
def calculateMaxDrawdown (config : BacktestConfig) (equityCurve : List EquityPoint) : ℚ × ℚ :=
  if equityCurve = [] then (0, 0)
  else
    let r := equityCurve.foldl
      (fun (acc : ℚ × ℚ × ℚ) (point : EquityPoint) =>
        let peak := if point.balance > acc.1 then point.balance else acc.1
        let drawdown := peak - point.balance
        let drawdownPercent := if 0 < peak then drawdown / peak else 0
        if drawdown > acc.2.1 then (peak, drawdown, drawdownPercent)
        else (peak, acc.2.1, acc.2.2))
      (config.startingBalance, 0, 0)
    (r.2.1, r.2.2)

/-- engine.ts calculateDrawdownCurve. -/
def calculateDrawdownCurve (config : BacktestConfig) (equityCurve : List EquityPoint) :
    List DrawdownPoint :=
  if equityCurve = [] then []
  else
    (equityCurve.foldl
      (fun (acc : ℚ × List DrawdownPoint) (point : EquityPoint) =>
        let peak := if point.balance > acc.1 then point.balance else acc.1
        let drawdown := if 0 < peak then (peak - point.balance) / peak else 0
        (peak, acc.2 ++ [{ timestamp := point.timestamp, drawdown := drawdown }]))
      (config.startingBalance, [])).2

/-- engine.ts calculateConsecutive: longest winning and losing streaks. -/
def calculateConsecutive (trades : List BacktestTrade) : ℕ × ℕ :=
  let r := trades.foldl
    (fun (acc : ℕ × ℕ × ℕ × ℕ) (trade : BacktestTrade) =>
      let (maxW, maxL, curW, curL) := acc
      if 0 < trade.pnl then
        let curW := curW + 1
        (if curW > maxW then curW else maxW, maxL, curW, 0)
      else
        let curL := curL + 1
        (maxW, if curL > maxL then curL else maxL, 0, curL))
    (0, 0, 0, 0)
  (r.1, r.2.1)

/-- engine.ts calculateMetrics. sqrtQ models Math.sqrt (only used for the
standard deviation and the sqrt-of-N scaling of the Sharpe ratio). -/
def calculateMetrics (sqrtQ : ℚ → ℚ) (config : BacktestConfig)
    (trades : List BacktestTrade) (equityCurve : List EquityPoint) : PerformanceMetrics :=
  let wins := trades.filter (fun t => decide (0 < t.pnl))
  let losses := trades.filter (fun t => decide (t.pnl ≤ 0))
  let totalPnL := trades.foldl (fun sum t => sum + t.pnl) (0 : ℚ)
  let avgWin := if 0 < wins.length then (wins.foldl (fun sum t => sum + t.pnl) (0 : ℚ)) / wins.length else 0
  let avgLoss :=
    if 0 < losses.length then |(losses.foldl (fun sum t => sum + t.pnl) (0 : ℚ)) / losses.length| else 0
  let winRate := if 0 < trades.length then (wins.length : ℚ) / trades.length else 0
  let dd := calculateMaxDrawdown config equityCurve
  let returns := trades.map (fun t => t.pnl / config.startingBalance)
  let avgReturn := if 0 < returns.length then (returns.foldl (fun sum r => sum + r) (0 : ℚ)) / returns.length else 0
  let stdDev :=
    if 0 < returns.length then
      sqrtQ ((returns.foldl (fun sum r => sum + (r - avgReturn) ^ 2) (0 : ℚ)) / returns.length)
    else 0
  let sharpeRatio := if 0 < stdDev then (avgReturn / stdDev) * sqrtQ (returns.length) else 0
  let grossProfit := wins.foldl (fun sum t => sum + t.pnl) (0 : ℚ)
  let grossLoss := |losses.foldl (fun sum t => sum + t.pnl) (0 : ℚ)|
  let profitFactor : Option ℚ :=
    if 0 < grossLoss then some (grossProfit / grossLoss)
    else if 0 < grossProfit then none
    else some 0
  let consec := calculateConsecutive trades
  let expectancy := winRate * avgWin - (1 - winRate) * avgLoss
  let returnOnCapital := totalPnL / config.startingBalance
  { totalTrades := trades.length
    wins := wins.length
    losses := losses.length
    winRate := winRate
    totalPnL := totalPnL
    maxDrawdown := dd.1
    maxDrawdownPercent := dd.2
    sharpeRatio := sharpeRatio
    profitFactor := profitFactor
    avgWin := avgWin
    avgLoss := avgLoss
    avgTradeReturn := if 0 < trades.length then totalPnL / trades.length else 0
    maxConsecutiveWins := consec.1
    maxConsecutiveLosses := consec.2
    expectancy := expectancy
    returnOnCapital := returnOnCapital }

/-- The market-by-slug lookup of engine.ts run. The source builds a JS Map
by insertion, so for a duplicated slug the last market wins. -/
def mapGet (markets : List HistoricalMarket) (slug : String) : Option HistoricalMarket :=
  markets.foldl (fun acc m => if m.slug = slug then some m else acc) none

/-- All ticks of all markets, each paired with its market, in market order
(engine.ts run, lines building allTicks). -/
def allTicks (markets : List HistoricalMarket) : List (PriceTick × HistoricalMarket) :=
  (markets.map (fun m => m.priceTicks.map (fun t => (t, m)))).flatten

/-- engine.ts run: `allTicks.sort((a, b) => a.tick.timestamp - b.tick.timestamp)`.
JS Array.sort is a stable ascending sort under this comparator, which is
exactly mergeSort with the ≤-on-timestamps comparison. -/
def allTicksSorted (markets : List HistoricalMarket) : List (PriceTick × HistoricalMarket) :=
  (allTicks markets).mergeSort (fun a b => decide (a.1.timestamp ≤ b.1.timestamp))

/-- The state reset at the top of engine.ts run (equally, the constructor
state). -/
def initialState (config : BacktestConfig) : EngineState :=
  { balance := config.startingBalance
    savedProfit := 0
    position := none
    ladderState := none
    ladderMarketLocks := []
    trades := []
    equityCurve := []
    peakBalance := config.startingBalance
    lastTrade := none }

/-- The JS `Set.add` on the expiredMarkets set. -/
def addExpired (slug : String) (expired : List String) : List String :=
  if slug ∈ expired then expired else expired ++ [slug]

/-- One iteration of the main tick loop of engine.ts run: force-close the
held position and/or ladder once their market's end time is reached, drop
ticks of expired markets, otherwise process the tick. -/
def runTickStep (config : BacktestConfig) (dateNow : ℤ) (markets : List HistoricalMarket)
    (acc : EngineState × List String) (tm : PriceTick × HistoricalMarket) :
    EngineState × List String :=
  let (tick, market) := tm
  let (s, expired) := acc
  let (s, expired) :=
    match s.position with
    | some position =>
      if position.marketSlug ∈ expired then (s, expired)
      else
        match mapGet markets position.marketSlug with
        | some positionMarket =>
          if positionMarket.endDate ≤ tick.timestamp then
            (closePositionAtExpiry config positionMarket s, addExpired positionMarket.slug expired)
          else (s, expired)
        | none => (s, expired)
    | none => (s, expired)
  let (s, expired) :=
    match s.ladderState with
    | some l =>
      if l.marketSlug ∈ expired then (s, expired)
      else
        match mapGet markets l.marketSlug with
        | some ladderMarket =>
          if ladderMarket.endDate ≤ tick.timestamp then
            (closeLadderAtExpiry config ladderMarket s, addExpired ladderMarket.slug expired)
          else (s, expired)
        | none => (s, expired)
    | none => (s, expired)
  if market.slug ∈ expired then (s, expired)
  else if market.endDate ≤ tick.timestamp then
    let s :=
      match s.position with
      | some position =>
        if position.marketSlug = market.slug then closePositionAtExpiry config market s else s
      | none => s
    let s :=
      match s.ladderState with
      | some l =>
        if l.marketSlug = market.slug then closeLadderAtExpiry config market s else s
      | none => s
    (s, addExpired market.slug expired)
  else
    (processTick config dateNow tick market s, expired)

/-- The end-of-run force close of engine.ts run. -/
def finalClose (config : BacktestConfig) (markets : List HistoricalMarket)
    (s : EngineState) : EngineState :=
  let s :=
    match s.position with
    | some position =>
      match mapGet markets position.marketSlug with
      | some market => closePositionAtExpiry config market s
      | none => s
    | none => s
  match s.ladderState with
  | some l =>
    match mapGet markets l.marketSlug with
    | some market => closeLadderAtExpiry config market s
    | none => s
  | none => s

/-- engine.ts BacktestEngine.run (equally runBacktest): fold the globally
time-sorted tick sequence through the tick processor, force-close whatever
remains open, and compute the metrics. -/
def run (sqrtQ : ℚ → ℚ) (dateNow : ℤ) (config : BacktestConfig)
    (markets : List HistoricalMarket) : BacktestResult :=
  let folded := (allTicksSorted markets).foldl (runTickStep config dateNow markets)
    (initialState config, [])
  let s := finalClose config markets folded.1
  { config := config
    metrics := calculateMetrics sqrtQ config s.trades s.equityCurve
    trades := s.trades
    equityCurve := s.equityCurve
    drawdownCurve := calculateDrawdownCurve config s.equityCurve
    savedProfit := s.savedProfit
    finalBalance := s.balance }

end BacktestEngine

namespace Bot

/-- The trade statuses of db.ts used by the ladder paths. -/
inductive TradeStatus
  | OPEN
  | STOPPED
  | RESOLVED
deriving DecidableEq, Repr

/-- bot.ts LadderState: the live ladder also tracks the database trade ids
that compose it. -/
structure LadderState where
  tokenId : String
  side : Side
  marketSlug : String
  marketEndDate : ℤ
  currentStepIndex : ℕ
  currentStepPhase : StepPhase
  completedSteps : List String
  skippedSteps : List String
  skippedReasons : List (String × String)
  totalShares : ℚ
  totalCostBasis : ℚ
  averageEntryPrice : ℚ
  totalSharesSold : ℚ
  totalSellProceeds : ℚ
  ladderStartTime : ℤ
  lastStepTime : ℤ
  lastStepPrice : ℚ
  tradeIds : List ℕ
  needsRecovery : Bool
  status : LadderStatus
deriving DecidableEq, Repr

/-- A row of the trades table, restricted to the columns read or written
by the ladder stop-loss path (getTradeById, closeTrade, updateLadderState).
The persisted ladder_state_json column is modelled as the snapshot itself
rather than its JSON serialization. -/
structure DbTrade where
  id : ℕ
  tokenId : String
  shares : ℚ
  costBasis : ℚ
  status : TradeStatus
  exitPrice : Option ℚ
  ladderSnapshot : Option LadderState
deriving DecidableEq, Repr

/-- bot.ts Position (live). -/
structure Position where
  tradeId : ℕ
  tokenId : String
  shares : ℚ
  entryPrice : ℚ
  side : Side
  marketSlug : String
  marketEndDate : ℤ
  isLadder : Bool
deriving DecidableEq, Repr

/-- The slice of bot.ts BotState threaded through the ladder stop-loss
path, together with the trades table it reads and writes. -/
structure BotState where
  balance : ℚ
  savedProfit : ℚ
  reservedBalance : ℚ
  positions : List (String × Position)
  pendingEntries : List String
  pendingExits : List String
  ladderStates : List (String × LadderState)
  ladderMarketLocks : List String
  db : List DbTrade
deriving DecidableEq, Repr

/-- The configuration fields of bot.ts read by the stop-loss path. -/
structure Config where
  paperTrading : Bool
  compoundLimit : ℚ
  baseBalance : ℚ
deriving DecidableEq, Repr

/-- db.ts getTradeById. -/
def getTradeById (db : List DbTrade) (tradeId : ℕ) : Option DbTrade :=
  db.find? (fun t => decide (t.id = tradeId))

/-- db.ts closeTrade: set the exit price and final status of a trade. -/
def closeTrade (db : List DbTrade) (tradeId : ℕ) (exitPrice : ℚ) (status : TradeStatus) :
    List DbTrade :=
  db.map (fun t => if t.id = tradeId then { t with exitPrice := some exitPrice, status := status } else t)

/-- JS Map.get on an association list. -/
def mapGet (m : List (String × α)) (k : String) : Option α :=
  (m.find? (fun p => decide (p.1 = k))).map Prod.snd

/-- JS Map.set on an association list. -/
def mapSet (m : List (String × α)) (k : String) (v : α) : List (String × α) :=
  if m.any (fun p => decide (p.1 = k)) then
    m.map (fun p => if p.1 = k then (k, v) else p)
  else m ++ [(k, v)]

/-- JS Map.delete / Set.delete on an association list keyed by strings. -/
def mapDelete (m : List (String × α)) (k : String) : List (String × α) :=
  m.filter (fun p => decide (p.1 ≠ k))

/-- bot.ts getOpenLadderShares: total shares of the ladder's still-OPEN
database trades. -/
def getOpenLadderShares (db : List DbTrade) (ladderState : LadderState) : ℚ :=
  ladderState.tradeIds.foldl
    (fun total tradeId =>
      match getTradeById db tradeId with
      | some trade => if trade.status = TradeStatus.OPEN then total + trade.shares else total
      | none => total)
    0

/-- bot.ts closeAllOpenLadderTrades: close every still-OPEN trade of the
ladder at exitPrice and clear the ladder's trade id list. -/
def closeAllOpenLadderTrades (ladderState : LadderState) (exitPrice : ℚ)
    (status : TradeStatus) (db : List DbTrade) : List DbTrade × LadderState :=
  let db := ladderState.tradeIds.foldl
    (fun db tradeId =>
      match getTradeById db tradeId with
      | some trade => if trade.status = TradeStatus.OPEN then closeTrade db tradeId exitPrice status else db
      | none => db)
    db
  (db, { ladderState with tradeIds := [] })

/-- bot.ts resetLadderState: like the engine's, and it also clears the
trade id list. -/
def resetLadderState (dateNow : ℤ) (ladderState : LadderState) : LadderState :=
  { ladderState with
    currentStepIndex := 0
    currentStepPhase := StepPhase.buy
    completedSteps := []
    skippedSteps := []
    skippedReasons := []
    totalShares := 0
    totalCostBasis := 0
    averageEntryPrice := 0
    totalSharesSold := 0
    totalSellProceeds := 0
    lastStepTime := dateNow
    lastStepPrice := 0
    tradeIds := []
    needsRecovery := true
    status := LadderStatus.active }

/-- bot.ts persistLadderState: store the serialized ladder on each of its
database trades (no-op when the ladder has no trades). -/
def persistLadderState (ladderState : LadderState) (db : List DbTrade) : List DbTrade :=
  if ladderState.tradeIds = [] then db
  else db.map (fun t =>
    if t.id ∈ ladderState.tradeIds then { t with ladderSnapshot := some ladderState } else t)

/-- bot.ts checkCompoundLimit (paper-trading compounding sweep). -/
def checkCompoundLimit (config : Config) (s : BotState) : BotState :=
  if config.compoundLimit ≤ 0 then s
  else if s.balance > config.compoundLimit then
    { s with savedProfit := s.savedProfit + (s.balance - config.baseBalance),
             balance := config.baseBalance }
  else s

/-- bot.ts clearLadderMarketLock (early-returns when the market is not
locked; the db-side lock row removal is part of the same mutation). -/
def clearLadderMarketLock (marketSlug : String) (s : BotState) : BotState :=
  if marketSlug ∈ s.ladderMarketLocks then
    { s with ladderMarketLocks := s.ladderMarketLocks.filter (fun m => decide (m ≠ marketSlug)) }
  else s

/-- The guard release performed by the `finally` block of
bot.ts executeLadderStopLoss on every path out of the function body. -/
def releaseExitGuard (tokenId : String) (s : BotState) : BotState :=
  { s with pendingExits := s.pendingExits.filter (fun x => decide (x ≠ tokenId)) }

/-- bot.ts executeLadderStopLoss. The pendingExits mutex check is the
first statement: a call for a token whose guard is already held returns
with no effect at all. The trader's fallible calls are oracle parameters:
sellResult models `trader.marketSell` (none = failed) and newBalance
models `trader.getBalance` (none = null). Every completed path runs the
`finally` guard release. -/
def executeLadderStopLoss (config : Config) (dateNow : ℤ) (sellResult : Option ℚ)
    (newBalance : Option ℚ) (tokenId : String) (currentBid : ℚ) (s : BotState) : BotState :=
  if tokenId ∈ s.pendingExits then s
  else
    match mapGet s.ladderStates tokenId with
    | none => s
    | some l =>
      let s := { s with pendingExits := s.pendingExits ++ [tokenId] }
      let openShares := getOpenLadderShares s.db l
      let remainingShares := l.totalShares - l.totalSharesSold
      let sharesToSell := if 0 < openShares then openShares else remainingShares
      if sharesToSell < 0.01 then
        let s := clearLadderMarketLock l.marketSlug s
        let l := resetLadderState dateNow l
        let s := { s with ladderStates := mapSet s.ladderStates tokenId l,
                          db := persistLadderState l s.db }
        releaseExitGuard tokenId s
      else if config.paperTrading then
        let proceeds := sharesToSell * currentBid
        let l1 : LadderState := { l with
          totalSharesSold := l.totalSharesSold + sharesToSell
          totalSellProceeds := l.totalSellProceeds + proceeds }
        let s := { s with balance := s.balance + proceeds }
        let dbl := closeAllOpenLadderTrades l1 currentBid TradeStatus.STOPPED s.db
        let s := { s with db := dbl.1, positions := mapDelete s.positions tokenId }
        let s := checkCompoundLimit config s
        let s := clearLadderMarketLock dbl.2.marketSlug s
        let l2 := resetLadderState dateNow dbl.2
        let s := { s with ladderStates := mapSet s.ladderStates tokenId l2,
                          db := persistLadderState l2 s.db }
        releaseExitGuard tokenId s
      else
        match sellResult with
        | some price =>
          let proceeds := sharesToSell * price
          let l1 : LadderState := { l with
            totalSharesSold := l.totalSharesSold + sharesToSell
            totalSellProceeds := l.totalSellProceeds + proceeds }
          let dbl := closeAllOpenLadderTrades l1 price TradeStatus.STOPPED s.db
          let s := { s with db := dbl.1, positions := mapDelete s.positions tokenId }
          let s := match newBalance with
            | some b => { s with balance := b }
            | none => s
          let s := clearLadderMarketLock dbl.2.marketSlug s
          let l2 := resetLadderState dateNow dbl.2
          let s := { s with ladderStates := mapSet s.ladderStates tokenId l2,
                            db := persistLadderState l2 s.db }
          releaseExitGuard tokenId s
        | none =>
          -- Market sell failed: no reset, retried on the next tick; only
          -- the finally block runs.
          releaseExitGuard tokenId s

end Bot

namespace BacktestEngine

/-- States of one ladder in two replays that differ only in the wall
clock: all fields agree except ladderStartTime (assigned from Date.now()
and never read), and lastStepTime, which may differ only in the
just-reset configuration (recovery gate armed, no open shares), where it
is dead until the recovery release overwrites it. -/
def LadderRel (l1 l2 : LadderState) : Prop :=
  ∃ a b, l2 = { l1 with ladderStartTime := a, lastStepTime := b } ∧
    (b = l1.lastStepTime ∨
      (l1.needsRecovery = true ∧ l1.totalShares - l1.totalSharesSold < 0.01))

/-- LadderRel lifted to the optional ladder field. -/
def OptLadderRel : Option LadderState → Option LadderState → Prop
  | none, none => True
  | some l1, some l2 => LadderRel l1 l2
  | _, _ => False

/-- Engine states of two replays that differ only in the wall clock:
identical except for the clock-tainted ladder fields of LadderRel. -/
def StateRel (s1 s2 : EngineState) : Prop :=
  ∃ o, s2 = { s1 with ladderState := o } ∧ OptLadderRel s1.ladderState o

/-- StateRel on the engine-state / expired-market-set pairs threaded by
the run loop. -/
def PairRel (p1 p2 : EngineState × List String) : Prop :=
  StateRel p1.1 p2.1 ∧ p1.2 = p2.2

end BacktestEngine

namespace BacktestEngine

/-- A step that getActiveStep may stop at: enabled and neither completed
nor skipped yet. -/
def actionableStep (l : LadderState) (step : LadderStep) : Prop :=
  step.enabled = true ∧ step.id ∉ l.completedSteps ∧ step.id ∉ l.skippedSteps

end BacktestEngine

/-- C7: checkCompoundLimit sweeps the excess above baseBalance into
savedProfit and resets the balance to baseBalance exactly when
compoundLimit is positive and the balance exceeds it; otherwise it leaves
the state unchanged; and it is idempotent. -/
theorem checkCompoundLimit_sweep_idempotent (config : BacktestConfig)
    (s : BacktestEngine.EngineState) :
    (0 < config.compoundLimit ∧ config.compoundLimit < s.balance →
      (BacktestEngine.checkCompoundLimit config s).savedProfit
          = s.savedProfit + (s.balance - config.baseBalance) ∧
      (BacktestEngine.checkCompoundLimit config s).balance = config.baseBalance) ∧
    (¬(0 < config.compoundLimit ∧ config.compoundLimit < s.balance) →
      BacktestEngine.checkCompoundLimit config s = s) ∧
    BacktestEngine.checkCompoundLimit config (BacktestEngine.checkCompoundLimit config s)
      = BacktestEngine.checkCompoundLimit config s := by
  refine ⟨?_, ?_, ?_⟩
  · rintro ⟨hp, hb⟩
    unfold BacktestEngine.checkCompoundLimit
    rw [if_neg (not_le.mpr hp), if_neg (not_le.mpr hb)]
    exact ⟨rfl, rfl⟩
  · intro hc
    unfold BacktestEngine.checkCompoundLimit
    by_cases h1 : config.compoundLimit ≤ 0
    · rw [if_pos h1]
    · rw [if_neg h1]
      have h2 : s.balance ≤ config.compoundLimit := by
        by_contra h2
        exact hc ⟨not_le.mp h1, not_le.mp h2⟩
      rw [if_pos h2]
  · unfold BacktestEngine.checkCompoundLimit
    by_cases h1 : config.compoundLimit ≤ 0
    · simp [h1]
    · by_cases h2 : s.balance ≤ config.compoundLimit
      · simp [h1, h2]
      · by_cases h3 : config.baseBalance ≤ config.compoundLimit
        · simp [h1, h2, h3]
        · simp only [if_neg h1, if_neg h2, if_neg h3]
          simp only [BacktestEngine.EngineState.mk.injEq]
          refine ⟨trivial, by ring, by simp⟩

/-- Witness for C7 at the spec's concrete numbers: compoundLimit 15,
baseBalance 10, a close bringing the balance to 20 results in balance 10
and savedProfit increased by 10. -/
theorem checkCompoundLimit_sweep_idempotent_witness :
    ((0:ℚ) < 15 ∧ (15:ℚ) < 20) ∧
    (BacktestEngine.checkCompoundLimit
        { entryThreshold := 0.95, maxEntryPrice := 0.98, stopLoss := 0.8, maxSpread := 0.03,
          timeWindowMs := 300000, profitTarget := 0.99, startingBalance := 10, slippage := 0,
          compoundLimit := 15, baseBalance := 10, riskMode := RiskMode.normal, ladderSteps := [] }
        { balance := 20, savedProfit := 0, position := none, ladderState := none,
          ladderMarketLocks := [], trades := [], equityCurve := [], peakBalance := 10,
          lastTrade := none }).savedProfit = 0 + (20 - 10) ∧
    (BacktestEngine.checkCompoundLimit
        { entryThreshold := 0.95, maxEntryPrice := 0.98, stopLoss := 0.8, maxSpread := 0.03,
          timeWindowMs := 300000, profitTarget := 0.99, startingBalance := 10, slippage := 0,
          compoundLimit := 15, baseBalance := 10, riskMode := RiskMode.normal, ladderSteps := [] }
        { balance := 20, savedProfit := 0, position := none, ladderState := none,
          ladderMarketLocks := [], trades := [], equityCurve := [], peakBalance := 10,
          lastTrade := none }).balance = 10 := by
  refine ⟨by norm_num, ?_, ?_⟩
  · exact ((checkCompoundLimit_sweep_idempotent _ _).1 (by norm_num)).1
  · exact ((checkCompoundLimit_sweep_idempotent _ _).1 (by norm_num)).2

/-- C6: the normal-mode entry check enters (changes the state) only when
all filters hold: time remaining in the window, spread within maxSpread,
ask within the entry band, and ask below the profit target. -/
theorem checkEntry_requires_all_filters (config : BacktestConfig) (tick : PriceTick)
    (market : HistoricalMarket) (s : BacktestEngine.EngineState) :
    BacktestEngine.checkEntry config tick market s ≠ s →
      (0 < market.endDate - tick.timestamp
        ∧ market.endDate - tick.timestamp ≤ config.timeWindowMs) ∧
      tick.bestAsk - tick.bestBid ≤ config.maxSpread ∧
      config.entryThreshold ≤ tick.bestAsk ∧
      tick.bestAsk ≤ config.maxEntryPrice ∧
      tick.bestAsk < config.profitTarget := by
  intro hne
  unfold BacktestEngine.checkEntry at hne
  simp at hne
  obtain ⟨ha, hb, hc, hd, he, hf, -⟩ := hne
  exact ⟨⟨by omega, by omega⟩, by linarith, hd, he, hf⟩

/-- Witness for C6 at a concrete entering tick: the hypothesis (the check
does enter) holds and all four filter conditions follow. -/
theorem checkEntry_requires_all_filters_witness :
    (BacktestEngine.checkEntry
        { entryThreshold := 0.95, maxEntryPrice := 0.98, stopLoss := 0.8, maxSpread := 0.03,
          timeWindowMs := 300000, profitTarget := 0.99, startingBalance := 100, slippage := 0,
          compoundLimit := 0, baseBalance := 10, riskMode := RiskMode.normal, ladderSteps := [] }
        { timestamp := 0, tokenId := "tokUp", marketSlug := "mkt", bestBid := 0.94,
          bestAsk := 0.95, midPrice := 0.945 }
        { slug := "mkt", question := "q", startDate := 0, endDate := 60000,
          upTokenId := "tokUp", downTokenId := "tokDown", outcome := none, priceTicks := [] }
        { balance := 100, savedProfit := 0, position := none, ladderState := none,
          ladderMarketLocks := [], trades := [], equityCurve := [], peakBalance := 100,
          lastTrade := none }
      ≠ { balance := 100, savedProfit := 0, position := none, ladderState := none,
          ladderMarketLocks := [], trades := [], equityCurve := [], peakBalance := 100,
          lastTrade := none }) ∧
    ((0 < (60000:ℤ) - 0 ∧ (60000:ℤ) - 0 ≤ 300000) ∧
      (0.95:ℚ) - 0.94 ≤ 0.03 ∧ (0.95:ℚ) ≤ 0.95 ∧ (0.95:ℚ) ≤ 0.98 ∧ (0.95:ℚ) < 0.99) := by
  have hne : BacktestEngine.checkEntry
      { entryThreshold := 0.95, maxEntryPrice := 0.98, stopLoss := 0.8, maxSpread := 0.03,
        timeWindowMs := 300000, profitTarget := 0.99, startingBalance := 100, slippage := 0,
        compoundLimit := 0, baseBalance := 10, riskMode := RiskMode.normal, ladderSteps := [] }
      { timestamp := 0, tokenId := "tokUp", marketSlug := "mkt", bestBid := 0.94,
        bestAsk := 0.95, midPrice := 0.945 }
      { slug := "mkt", question := "q", startDate := 0, endDate := 60000,
        upTokenId := "tokUp", downTokenId := "tokDown", outcome := none, priceTicks := [] }
      { balance := 100, savedProfit := 0, position := none, ladderState := none,
        ladderMarketLocks := [], trades := [], equityCurve := [], peakBalance := 100,
        lastTrade := none }
    ≠ { balance := 100, savedProfit := 0, position := none, ladderState := none,
        ladderMarketLocks := [], trades := [], equityCurve := [], peakBalance := 100,
        lastTrade := none } := by
    norm_num [BacktestEngine.checkEntry, BacktestEngine.executeEntry, BacktestEngine.sideFor,
      BacktestEngine.isLastTradeWin]
  refine ⟨hne, ?_⟩
  have h := checkEntry_requires_all_filters _ _ _ _ hne
  refine ⟨h.1, ?_, ?_, ?_, ?_⟩ <;> norm_num

/-- C10: getActiveStep (a total function in this embedding, its recursion
bounded by the step count minus the strictly increasing currentStepIndex)
either returns none, in which case no step at an index at or beyond the
starting currentStepIndex is enabled-and-not-completed-and-not-skipped,
or returns the first such actionable step, advancing only
currentStepIndex. -/
theorem getActiveStep_spec (l : BacktestEngine.LadderState) (steps : List LadderStep) :
    ((BacktestEngine.getActiveStep l steps).2 = none →
      ∀ j (hj : j < steps.length), l.currentStepIndex ≤ j →
        ¬ BacktestEngine.actionableStep l (steps.get ⟨j, hj⟩)) ∧
    (∀ st, (BacktestEngine.getActiveStep l steps).2 = some st →
      ∃ j, ∃ hj : j < steps.length, l.currentStepIndex ≤ j ∧ steps.get ⟨j, hj⟩ = st ∧
        BacktestEngine.actionableStep l st ∧
        (BacktestEngine.getActiveStep l steps).1 = { l with currentStepIndex := j } ∧
        ∀ k (hk : k < steps.length), l.currentStepIndex ≤ k → k < j →
          ¬ BacktestEngine.actionableStep l (steps.get ⟨k, hk⟩)) := by
  induction l, steps using BacktestEngine.getActiveStep.induct with
  | case1 a b c d e ih =>
    have heq : BacktestEngine.getActiveStep a b
        = BacktestEngine.getActiveStep { a with currentStepIndex := a.currentStepIndex + 1 } b := by
      conv_lhs => rw [BacktestEngine.getActiveStep]
      simp only [dif_pos c]
      rw [if_pos e]
    have hnot : ¬ BacktestEngine.actionableStep a (b.get ⟨a.currentStepIndex, c⟩) := by
      intro hact
      rw [hact.1] at e
      exact absurd e (by simp)
    obtain ⟨ihn, ihs⟩ := ih
    constructor
    · intro hnone j hj hle
      rw [heq] at hnone
      rcases Nat.eq_or_lt_of_le hle with heqj | hltj
      · exact heqj ▸ hnot
      · exact ihn hnone j hj hltj
    · intro st hst
      rw [heq] at hst
      obtain ⟨j, hj, hge, hget, hact, hstate, hmin⟩ := ihs st hst
      have hge' : a.currentStepIndex + 1 ≤ j := hge
      refine ⟨j, hj, by omega, hget, hact, by rw [heq]; exact hstate, ?_⟩
      intro k hk h1 h2
      rcases Nat.eq_or_lt_of_le h1 with heqk | hltk
      · exact heqk ▸ hnot
      · exact hmin k hk hltk h2
  | case2 a b c d e f ih =>
    have heq : BacktestEngine.getActiveStep a b
        = BacktestEngine.getActiveStep { a with currentStepIndex := a.currentStepIndex + 1 } b := by
      conv_lhs => rw [BacktestEngine.getActiveStep]
      simp only [dif_pos c]
      rw [if_neg e, if_pos f]
    have hnot : ¬ BacktestEngine.actionableStep a (b.get ⟨a.currentStepIndex, c⟩) := by
      intro hact
      exact hact.2.1 f
    obtain ⟨ihn, ihs⟩ := ih
    constructor
    · intro hnone j hj hle
      rw [heq] at hnone
      rcases Nat.eq_or_lt_of_le hle with heqj | hltj
      · exact heqj ▸ hnot
      · exact ihn hnone j hj hltj
    · intro st hst
      rw [heq] at hst
      obtain ⟨j, hj, hge, hget, hact, hstate, hmin⟩ := ihs st hst
      have hge' : a.currentStepIndex + 1 ≤ j := hge
      refine ⟨j, hj, by omega, hget, hact, by rw [heq]; exact hstate, ?_⟩
      intro k hk h1 h2
      rcases Nat.eq_or_lt_of_le h1 with heqk | hltk
      · exact heqk ▸ hnot
      · exact hmin k hk hltk h2
  | case3 a b c d e f g ih =>
    have heq : BacktestEngine.getActiveStep a b
        = BacktestEngine.getActiveStep { a with currentStepIndex := a.currentStepIndex + 1 } b := by
      conv_lhs => rw [BacktestEngine.getActiveStep]
      simp only [dif_pos c]
      rw [if_neg e, if_neg f, if_pos g]
    have hnot : ¬ BacktestEngine.actionableStep a (b.get ⟨a.currentStepIndex, c⟩) := by
      intro hact
      exact hact.2.2 g
    obtain ⟨ihn, ihs⟩ := ih
    constructor
    · intro hnone j hj hle
      rw [heq] at hnone
      rcases Nat.eq_or_lt_of_le hle with heqj | hltj
      · exact heqj ▸ hnot
      · exact ihn hnone j hj hltj
    · intro st hst
      rw [heq] at hst
      obtain ⟨j, hj, hge, hget, hact, hstate, hmin⟩ := ihs st hst
      have hge' : a.currentStepIndex + 1 ≤ j := hge
      refine ⟨j, hj, by omega, hget, hact, by rw [heq]; exact hstate, ?_⟩
      intro k hk h1 h2
      rcases Nat.eq_or_lt_of_le h1 with heqk | hltk
      · exact heqk ▸ hnot
      · exact hmin k hk hltk h2
  | case4 a b c d e f g =>
    have heq : BacktestEngine.getActiveStep a b = (a, some (b.get ⟨a.currentStepIndex, c⟩)) := by
      rw [BacktestEngine.getActiveStep]
      simp only [dif_pos c]
      rw [if_neg e, if_neg f, if_neg g]
    constructor
    · intro hnone
      rw [heq] at hnone
      simp at hnone
    · intro st hst
      rw [heq] at hst
      simp only [Option.some.injEq] at hst
      refine ⟨a.currentStepIndex, c, le_refl _, hst, ?_, ?_, ?_⟩
      · exact hst ▸ ⟨by simpa using e, f, g⟩
      · rw [heq]
      · intro k hk h1 h2
        omega
  | case5 a b h =>
    have heq : BacktestEngine.getActiveStep a b = (a, none) := by
      rw [BacktestEngine.getActiveStep]
      simp only [dif_neg h]
    constructor
    · intro _ j hj hle
      omega
    · intro st hst
      rw [heq] at hst
      simp at hst

/-- Witness for C10 on a one-step ladder: the scan stops at the enabled
first step. -/
theorem getActiveStep_spec_witness :
    BacktestEngine.actionableStep
      { tokenId := "tok", side := Side.UP, marketSlug := "mkt", marketEndDate := 900000,
        currentStepIndex := 0, currentStepPhase := StepPhase.buy, completedSteps := [],
        skippedSteps := [], skippedReasons := [], totalShares := 0, totalCostBasis := 0,
        averageEntryPrice := 0, totalSharesSold := 0, totalSellProceeds := 0,
        ladderStartTime := 0, lastStepTime := 0, lastStepPrice := 0, needsRecovery := false,
        status := LadderStatus.active }
      { id := "step1", stopLoss := 0.4,
        buy := { triggerPrice := 0.6, sizeType := SizeType.percent, sizeValue := 100 },
        sell := { triggerPrice := 0.7, sizeType := SizeType.percent, sizeValue := 100 },
        enabled := true } ∧
    (BacktestEngine.getActiveStep
      { tokenId := "tok", side := Side.UP, marketSlug := "mkt", marketEndDate := 900000,
        currentStepIndex := 0, currentStepPhase := StepPhase.buy, completedSteps := [],
        skippedSteps := [], skippedReasons := [], totalShares := 0, totalCostBasis := 0,
        averageEntryPrice := 0, totalSharesSold := 0, totalSellProceeds := 0,
        ladderStartTime := 0, lastStepTime := 0, lastStepPrice := 0, needsRecovery := false,
        status := LadderStatus.active }
      [{ id := "step1", stopLoss := 0.4,
         buy := { triggerPrice := 0.6, sizeType := SizeType.percent, sizeValue := 100 },
         sell := { triggerPrice := 0.7, sizeType := SizeType.percent, sizeValue := 100 },
         enabled := true }]).1.currentStepIndex = 0 := by
  have hsome : (BacktestEngine.getActiveStep
      { tokenId := "tok", side := Side.UP, marketSlug := "mkt", marketEndDate := 900000,
        currentStepIndex := 0, currentStepPhase := StepPhase.buy, completedSteps := [],
        skippedSteps := [], skippedReasons := [], totalShares := 0, totalCostBasis := 0,
        averageEntryPrice := 0, totalSharesSold := 0, totalSellProceeds := 0,
        ladderStartTime := 0, lastStepTime := 0, lastStepPrice := 0, needsRecovery := false,
        status := LadderStatus.active }
      [{ id := "step1", stopLoss := 0.4,
         buy := { triggerPrice := 0.6, sizeType := SizeType.percent, sizeValue := 100 },
         sell := { triggerPrice := 0.7, sizeType := SizeType.percent, sizeValue := 100 },
         enabled := true }]).2 = some
      { id := "step1", stopLoss := 0.4,
        buy := { triggerPrice := 0.6, sizeType := SizeType.percent, sizeValue := 100 },
        sell := { triggerPrice := 0.7, sizeType := SizeType.percent, sizeValue := 100 },
        enabled := true } := by
    rw [BacktestEngine.getActiveStep]
    simp
  obtain ⟨j, hj, hge, hget, hact, hstate, hmin⟩ :=
    (getActiveStep_spec _ _).2 _ hsome
  have hj0 : j = 0 := by
    simp at hj
    omega
  subst hj0
  exact ⟨hact, by rw [hstate]⟩

/-- The compounding sweep conserves balance + savedProfit, touches nothing
else, and leaves the balance alone when it does not trigger. -/
theorem checkCompoundLimit_account (config : BacktestConfig) (s : BacktestEngine.EngineState) :
    (BacktestEngine.checkCompoundLimit config s).balance
        + ((BacktestEngine.checkCompoundLimit config s).savedProfit - s.savedProfit)
      = s.balance ∧
    (¬(0 < config.compoundLimit ∧ config.compoundLimit < s.balance) →
      (BacktestEngine.checkCompoundLimit config s).balance = s.balance) ∧
    (BacktestEngine.checkCompoundLimit config s).trades = s.trades := by
  unfold BacktestEngine.checkCompoundLimit
  split_ifs with h1 h2
  · exact ⟨by ring, fun _ => rfl, rfl⟩
  · exact ⟨by ring, fun _ => rfl, rfl⟩
  · refine ⟨by ring, fun hc => absurd ⟨not_le.mp h1, not_le.mp h2⟩ hc, rfl⟩

/-- C5: a normal-mode entry is taken all-in at the slippage-adjusted,
0.99-capped effective price, zeroing the balance; a close records PnL
exactly equal to (recorded exit price − entry price) × shares, and sets
the balance to exit price × shares (conserved through the compounding
sweep, and literal whenever the sweep does not trigger). -/
theorem normal_entry_exit_accounting (config : BacktestConfig) (tick : PriceTick)
    (market : HistoricalMarket) (side : Side) (exitPrice : ℚ) (exitTimestamp : ℤ)
    (exitReason : ExitReason) (s : BacktestEngine.EngineState) (pos : SimulatedPosition) :
    ((BacktestEngine.executeEntry config tick market side s).position =
        some { tokenId := tick.tokenId, marketSlug := market.slug, side := side,
               shares := s.balance / min (tick.bestAsk * (1 + config.slippage)) 0.99,
               entryPrice := min (tick.bestAsk * (1 + config.slippage)) 0.99,
               entryTimestamp := tick.timestamp } ∧
      (BacktestEngine.executeEntry config tick market side s).balance = 0) ∧
    (s.position = some pos →
      ∃ t : BacktestTrade,
        (BacktestEngine.executeExit config exitPrice exitTimestamp exitReason s).trades
            = s.trades ++ [t] ∧
        t.shares = pos.shares ∧
        t.entryPrice = pos.entryPrice ∧
        t.pnl = (t.exitPrice - pos.entryPrice) * pos.shares ∧
        (BacktestEngine.executeExit config exitPrice exitTimestamp exitReason s).balance
            + ((BacktestEngine.executeExit config exitPrice exitTimestamp exitReason s).savedProfit
                - s.savedProfit)
          = t.exitPrice * pos.shares ∧
        (¬(0 < config.compoundLimit ∧ config.compoundLimit < t.exitPrice * pos.shares) →
          (BacktestEngine.executeExit config exitPrice exitTimestamp exitReason s).balance
            = t.exitPrice * pos.shares)) := by
  constructor
  · constructor
    · simp [BacktestEngine.executeEntry]
    · simp [BacktestEngine.executeEntry]
  · intro hpos
    set fep := (if exitReason = ExitReason.STOP_LOSS then
        max (exitPrice * (1 - config.slippage)) 0.01 else exitPrice) with hfep
    set t : BacktestTrade := ({ marketSlug := pos.marketSlug
                                tokenId := pos.tokenId
                                side := pos.side
                                entryPrice := pos.entryPrice
                                exitPrice := fep
                                shares := pos.shares
                                entryTimestamp := pos.entryTimestamp
                                exitTimestamp := exitTimestamp
                                exitReason := exitReason
                                pnl := (fep - pos.entryPrice) * pos.shares
                                ladderStepId := none }) with ht
    set s1 : BacktestEngine.EngineState := ({ s with
                                trades := s.trades ++ [t]
                                lastTrade := some t
                                balance := fep * pos.shares
                                equityCurve := s.equityCurve ++
                                  [{ timestamp := exitTimestamp, balance := fep * pos.shares }]
                                peakBalance := if fep * pos.shares > s.peakBalance then
                                  fep * pos.shares else s.peakBalance
                                position := none }) with hs1
    have hrw : BacktestEngine.executeExit config exitPrice exitTimestamp exitReason s
        = BacktestEngine.checkCompoundLimit config s1 := by
      unfold BacktestEngine.executeExit
      rw [hpos]
    refine ⟨t, ?_, rfl, rfl, rfl, ?_, ?_⟩
    · rw [hrw, (checkCompoundLimit_account config s1).2.2]
    · rw [hrw]
      exact (checkCompoundLimit_account config s1).1
    · intro hns
      rw [hrw]
      exact (checkCompoundLimit_account config s1).2.1 hns

/-- Witness for C5: a concrete position closed at the profit target
records exactly one trade. -/
theorem normal_entry_exit_accounting_witness :
    (BacktestEngine.executeExit
      { entryThreshold := 0.5, maxEntryPrice := 0.9, stopLoss := 0.4, maxSpread := 0.05, timeWindowMs := 900000, profitTarget := 0.99, startingBalance := 100, slippage := 0, compoundLimit := 0, baseBalance := 10, riskMode := RiskMode.normal, ladderSteps := [] }
      0.7 1000 ExitReason.PROFIT_TARGET
      { balance := 0, savedProfit := 0, position := some { tokenId := "tok", marketSlug := "mkt", side := Side.UP, shares := 100, entryPrice := 0.6, entryTimestamp := 0 }, ladderState := none, ladderMarketLocks := [], trades := [], equityCurve := [], peakBalance := 100, lastTrade := none }).trades.length = 1 := by
  obtain ⟨t, h1, -, -, -, -, -⟩ :=
    (normal_entry_exit_accounting { entryThreshold := 0.5, maxEntryPrice := 0.9, stopLoss := 0.4, maxSpread := 0.05, timeWindowMs := 900000, profitTarget := 0.99, startingBalance := 100, slippage := 0, compoundLimit := 0, baseBalance := 10, riskMode := RiskMode.normal, ladderSteps := [] } { timestamp := 0, tokenId := "tok", marketSlug := "mkt", bestBid := 0.6, bestAsk := 0.61, midPrice := 0.605 } { slug := "mkt", question := "q", startDate := 0, endDate := 900000, upTokenId := "tok", downTokenId := "tok2", outcome := none, priceTicks := [] } Side.UP 0.7 1000 ExitReason.PROFIT_TARGET { balance := 0, savedProfit := 0, position := some { tokenId := "tok", marketSlug := "mkt", side := Side.UP, shares := 100, entryPrice := 0.6, entryTimestamp := 0 }, ladderState := none, ladderMarketLocks := [], trades := [], equityCurve := [], peakBalance := 100, lastTrade := none } { tokenId := "tok", marketSlug := "mkt", side := Side.UP, shares := 100, entryPrice := 0.6, entryTimestamp := 0 }).2 rfl
  rw [h1]
  simp

/-- Counterexample for C2 as stated: with 100 open (unsold) shares and a
best bid of 0, which is at or below the active step's 0.4 stop-loss, the
tick processor records no trade and performs no reset: a zero (missing)
bid never triggers the ladder stop-loss. -/
theorem ladder_stoploss_zero_bid_counterexample :
    ((0:ℚ) < (100:ℚ) - 0 ∧ (0:ℚ) ≤ 0.4) ∧
    BacktestEngine.processLadderStateTick
      { entryThreshold := 0.5, maxEntryPrice := 0.9, stopLoss := 0.4, maxSpread := 0.05, timeWindowMs := 900000, profitTarget := 0.99, startingBalance := 100, slippage := 0, compoundLimit := 0, baseBalance := 10, riskMode := RiskMode.ladder, ladderSteps := [{ id := "step1", stopLoss := 0.4, buy := { triggerPrice := 0.6, sizeType := SizeType.percent, sizeValue := 100 }, sell := { triggerPrice := 0.7, sizeType := SizeType.percent, sizeValue := 100 }, enabled := true }] }
      0
      { timestamp := 120000, tokenId := "tok", marketSlug := "mkt", bestBid := 0, bestAsk := 0.5, midPrice := 0.25 }
      [{ id := "step1", stopLoss := 0.4, buy := { triggerPrice := 0.6, sizeType := SizeType.percent, sizeValue := 100 }, sell := { triggerPrice := 0.7, sizeType := SizeType.percent, sizeValue := 100 }, enabled := true }]
      { balance := 40, savedProfit := 0, position := none, ladderState := some { tokenId := "tok", side := Side.UP, marketSlug := "mkt", marketEndDate := 900000, currentStepIndex := 0, currentStepPhase := StepPhase.sell, completedSteps := [], skippedSteps := [], skippedReasons := [], totalShares := 100, totalCostBasis := 60, averageEntryPrice := 0.6, totalSharesSold := 0, totalSellProceeds := 0, ladderStartTime := 0, lastStepTime := 60000, lastStepPrice := 0.6, needsRecovery := false, status := LadderStatus.active }, ladderMarketLocks := [], trades := [], equityCurve := [], peakBalance := 100, lastTrade := none }
    = { balance := 40, savedProfit := 0, position := none, ladderState := some { tokenId := "tok", side := Side.UP, marketSlug := "mkt", marketEndDate := 900000, currentStepIndex := 0, currentStepPhase := StepPhase.sell, completedSteps := [], skippedSteps := [], skippedReasons := [], totalShares := 100, totalCostBasis := 60, averageEntryPrice := 0.6, totalSharesSold := 0, totalSellProceeds := 0, ladderStartTime := 0, lastStepTime := 60000, lastStepPrice := 0.6, needsRecovery := false, status := LadderStatus.active }, ladderMarketLocks := [], trades := [], equityCurve := [], peakBalance := 100, lastTrade := none } := by
  refine ⟨⟨by norm_num, by norm_num⟩, ?_⟩
  have hsls : BacktestEngine.getActiveStopLossStep { tokenId := "tok", side := Side.UP, marketSlug := "mkt", marketEndDate := 900000, currentStepIndex := 0, currentStepPhase := StepPhase.sell, completedSteps := [], skippedSteps := [], skippedReasons := [], totalShares := 100, totalCostBasis := 60, averageEntryPrice := 0.6, totalSharesSold := 0, totalSellProceeds := 0, ladderStartTime := 0, lastStepTime := 60000, lastStepPrice := 0.6, needsRecovery := false, status := LadderStatus.active } [{ id := "step1", stopLoss := 0.4, buy := { triggerPrice := 0.6, sizeType := SizeType.percent, sizeValue := 100 }, sell := { triggerPrice := 0.7, sizeType := SizeType.percent, sizeValue := 100 }, enabled := true }] = some { id := "step1", stopLoss := 0.4, buy := { triggerPrice := 0.6, sizeType := SizeType.percent, sizeValue := 100 }, sell := { triggerPrice := 0.7, sizeType := SizeType.percent, sizeValue := 100 }, enabled := true } := by
    simp only [BacktestEngine.getActiveStopLossStep]
    rw [BacktestEngine.findStopLossStepFrom]
    norm_num
  have hact : BacktestEngine.getActiveStep { tokenId := "tok", side := Side.UP, marketSlug := "mkt", marketEndDate := 900000, currentStepIndex := 0, currentStepPhase := StepPhase.sell, completedSteps := [], skippedSteps := [], skippedReasons := [], totalShares := 100, totalCostBasis := 60, averageEntryPrice := 0.6, totalSharesSold := 0, totalSellProceeds := 0, ladderStartTime := 0, lastStepTime := 60000, lastStepPrice := 0.6, needsRecovery := false, status := LadderStatus.active } [{ id := "step1", stopLoss := 0.4, buy := { triggerPrice := 0.6, sizeType := SizeType.percent, sizeValue := 100 }, sell := { triggerPrice := 0.7, sizeType := SizeType.percent, sizeValue := 100 }, enabled := true }] = ({ tokenId := "tok", side := Side.UP, marketSlug := "mkt", marketEndDate := 900000, currentStepIndex := 0, currentStepPhase := StepPhase.sell, completedSteps := [], skippedSteps := [], skippedReasons := [], totalShares := 100, totalCostBasis := 60, averageEntryPrice := 0.6, totalSharesSold := 0, totalSellProceeds := 0, ladderStartTime := 0, lastStepTime := 60000, lastStepPrice := 0.6, needsRecovery := false, status := LadderStatus.active }, some { id := "step1", stopLoss := 0.4, buy := { triggerPrice := 0.6, sizeType := SizeType.percent, sizeValue := 100 }, sell := { triggerPrice := 0.7, sizeType := SizeType.percent, sizeValue := 100 }, enabled := true }) := by
    rw [BacktestEngine.getActiveStep]
    norm_num
  simp only [BacktestEngine.processLadderStateTick, hsls, BacktestEngine.ladderStepLogic,
    BacktestEngine.stepDispatch, hact, BacktestEngine.getOpenLadderShares]
  norm_num

/-- C2 (amended): on a tick where more than the 0.01 dust threshold of
unsold shares is open and the bid is positive and at or below the active
step's stop-loss, all open shares are sold at the slippage-adjusted bid
regardless of the current buy/sell phase: exactly one LADDER_STOP_LOSS
trade is appended whose PnL is proceeds minus the proportional cost
basis, and the ladder is reset (step index 0, buy phase, bookkeeping
cleared, aggregates zeroed, needsRecovery set). -/
theorem ladder_stoploss_fires_and_resets (config : BacktestConfig) (dateNow : ℤ)
    (tick : PriceTick) (ladderSteps : List LadderStep) (s : BacktestEngine.EngineState)
    (l : BacktestEngine.LadderState) (st : LadderStep)
    (hl : s.ladderState = some l)
    (hshares : 0.01 < BacktestEngine.getOpenLadderShares l)
    (hsls : BacktestEngine.getActiveStopLossStep l ladderSteps = some st)
    (hbid : 0 < tick.bestBid) (hle : tick.bestBid ≤ st.stopLoss) :
    ∃ t : BacktestTrade,
      (BacktestEngine.processLadderStateTick config dateNow tick ladderSteps s).trades
          = s.trades ++ [t] ∧
      t.exitReason = ExitReason.LADDER_STOP_LOSS ∧
      t.shares = BacktestEngine.getOpenLadderShares l ∧
      t.exitPrice = max (tick.bestBid * (1 - config.slippage)) 0.01 ∧
      t.pnl = BacktestEngine.getOpenLadderShares l * t.exitPrice
          - (if 0 < l.totalShares then
              (BacktestEngine.getOpenLadderShares l / l.totalShares) * l.totalCostBasis
            else 0) ∧
      ∃ l', (BacktestEngine.processLadderStateTick config dateNow tick ladderSteps s).ladderState
            = some l' ∧
        l'.currentStepIndex = 0 ∧ l'.currentStepPhase = StepPhase.buy ∧
        l'.completedSteps = [] ∧ l'.skippedSteps = [] ∧
        l'.totalShares = 0 ∧ l'.totalCostBasis = 0 ∧ l'.averageEntryPrice = 0 ∧
        l'.totalSharesSold = 0 ∧ l'.totalSellProceeds = 0 ∧
        l'.needsRecovery = true := by
  have hrw : BacktestEngine.processLadderStateTick config dateNow tick ladderSteps s
      = BacktestEngine.executeLadderStopLoss config dateNow tick st s := by
    simp only [BacktestEngine.processLadderStateTick, hl, hsls]
    rw [if_pos ⟨hshares, hbid, hle⟩]
  rw [hrw]
  simp only [BacktestEngine.executeLadderStopLoss, hl]
  rw [if_neg (not_lt.mpr (le_of_lt hshares))]
  refine ⟨_, (checkCompoundLimit_account config _).2.2, rfl, rfl, rfl, ?_, ?_⟩
  · rfl
  · refine ⟨_, rfl, ?_⟩
    simp [BacktestEngine.resetLadderState]

/-- Witness for C2 on the spec scenario (stop-loss 0.4 hit at bid 0.4
with 100 open shares): one trade is recorded and the ladder ends up in
recovery. -/
theorem ladder_stoploss_fires_and_resets_witness :
    (BacktestEngine.processLadderStateTick { entryThreshold := 0.5, maxEntryPrice := 0.9, stopLoss := 0.4, maxSpread := 0.05, timeWindowMs := 900000, profitTarget := 0.99, startingBalance := 100, slippage := 0, compoundLimit := 0, baseBalance := 10, riskMode := RiskMode.ladder, ladderSteps := [{ id := "step1", stopLoss := 0.4, buy := { triggerPrice := 0.6, sizeType := SizeType.percent, sizeValue := 100 }, sell := { triggerPrice := 0.7, sizeType := SizeType.percent, sizeValue := 100 }, enabled := true }] } 0 { timestamp := 180000, tokenId := "tok", marketSlug := "mkt", bestBid := 0.4, bestAsk := 0.41, midPrice := 0.405 } [{ id := "step1", stopLoss := 0.4, buy := { triggerPrice := 0.6, sizeType := SizeType.percent, sizeValue := 100 }, sell := { triggerPrice := 0.7, sizeType := SizeType.percent, sizeValue := 100 }, enabled := true }] { balance := 40, savedProfit := 0, position := none, ladderState := some { tokenId := "tok", side := Side.UP, marketSlug := "mkt", marketEndDate := 900000, currentStepIndex := 0, currentStepPhase := StepPhase.sell, completedSteps := [], skippedSteps := [], skippedReasons := [], totalShares := 100, totalCostBasis := 60, averageEntryPrice := 0.6, totalSharesSold := 0, totalSellProceeds := 0, ladderStartTime := 0, lastStepTime := 60000, lastStepPrice := 0.6, needsRecovery := false, status := LadderStatus.active }, ladderMarketLocks := [], trades := [], equityCurve := [], peakBalance := 100, lastTrade := none }).trades.length = 1 ∧
    ((BacktestEngine.processLadderStateTick { entryThreshold := 0.5, maxEntryPrice := 0.9, stopLoss := 0.4, maxSpread := 0.05, timeWindowMs := 900000, profitTarget := 0.99, startingBalance := 100, slippage := 0, compoundLimit := 0, baseBalance := 10, riskMode := RiskMode.ladder, ladderSteps := [{ id := "step1", stopLoss := 0.4, buy := { triggerPrice := 0.6, sizeType := SizeType.percent, sizeValue := 100 }, sell := { triggerPrice := 0.7, sizeType := SizeType.percent, sizeValue := 100 }, enabled := true }] } 0 { timestamp := 180000, tokenId := "tok", marketSlug := "mkt", bestBid := 0.4, bestAsk := 0.41, midPrice := 0.405 } [{ id := "step1", stopLoss := 0.4, buy := { triggerPrice := 0.6, sizeType := SizeType.percent, sizeValue := 100 }, sell := { triggerPrice := 0.7, sizeType := SizeType.percent, sizeValue := 100 }, enabled := true }] { balance := 40, savedProfit := 0, position := none, ladderState := some { tokenId := "tok", side := Side.UP, marketSlug := "mkt", marketEndDate := 900000, currentStepIndex := 0, currentStepPhase := StepPhase.sell, completedSteps := [], skippedSteps := [], skippedReasons := [], totalShares := 100, totalCostBasis := 60, averageEntryPrice := 0.6, totalSharesSold := 0, totalSellProceeds := 0, ladderStartTime := 0, lastStepTime := 60000, lastStepPrice := 0.6, needsRecovery := false, status := LadderStatus.active }, ladderMarketLocks := [], trades := [], equityCurve := [], peakBalance := 100, lastTrade := none }).ladderState.map
        (fun l => l.needsRecovery)) = some true := by
  obtain ⟨t, h1, h2, h3, h4, h5, l', hl', hidx, hph, hcs, hsk, hts, htc, hae, hsold, hproc, hnr⟩ :=
    ladder_stoploss_fires_and_resets { entryThreshold := 0.5, maxEntryPrice := 0.9, stopLoss := 0.4, maxSpread := 0.05, timeWindowMs := 900000, profitTarget := 0.99, startingBalance := 100, slippage := 0, compoundLimit := 0, baseBalance := 10, riskMode := RiskMode.ladder, ladderSteps := [{ id := "step1", stopLoss := 0.4, buy := { triggerPrice := 0.6, sizeType := SizeType.percent, sizeValue := 100 }, sell := { triggerPrice := 0.7, sizeType := SizeType.percent, sizeValue := 100 }, enabled := true }] } 0 { timestamp := 180000, tokenId := "tok", marketSlug := "mkt", bestBid := 0.4, bestAsk := 0.41, midPrice := 0.405 } [{ id := "step1", stopLoss := 0.4, buy := { triggerPrice := 0.6, sizeType := SizeType.percent, sizeValue := 100 }, sell := { triggerPrice := 0.7, sizeType := SizeType.percent, sizeValue := 100 }, enabled := true }] { balance := 40, savedProfit := 0, position := none, ladderState := some { tokenId := "tok", side := Side.UP, marketSlug := "mkt", marketEndDate := 900000, currentStepIndex := 0, currentStepPhase := StepPhase.sell, completedSteps := [], skippedSteps := [], skippedReasons := [], totalShares := 100, totalCostBasis := 60, averageEntryPrice := 0.6, totalSharesSold := 0, totalSellProceeds := 0, ladderStartTime := 0, lastStepTime := 60000, lastStepPrice := 0.6, needsRecovery := false, status := LadderStatus.active }, ladderMarketLocks := [], trades := [], equityCurve := [], peakBalance := 100, lastTrade := none } { tokenId := "tok", side := Side.UP, marketSlug := "mkt", marketEndDate := 900000, currentStepIndex := 0, currentStepPhase := StepPhase.sell, completedSteps := [], skippedSteps := [], skippedReasons := [], totalShares := 100, totalCostBasis := 60, averageEntryPrice := 0.6, totalSharesSold := 0, totalSellProceeds := 0, ladderStartTime := 0, lastStepTime := 60000, lastStepPrice := 0.6, needsRecovery := false, status := LadderStatus.active } { id := "step1", stopLoss := 0.4, buy := { triggerPrice := 0.6, sizeType := SizeType.percent, sizeValue := 100 }, sell := { triggerPrice := 0.7, sizeType := SizeType.percent, sizeValue := 100 }, enabled := true }
      rfl
      (by norm_num [BacktestEngine.getOpenLadderShares])
      (by simp only [BacktestEngine.getActiveStopLossStep]
          rw [BacktestEngine.findStopLossStepFrom]
          norm_num)
      (by norm_num)
      (by norm_num)
  constructor
  · rw [h1]
    simp
  · rw [hl']
    simp [hnr]

/-- find? over the enabled predicate returns the element at the first
enabled index. -/
theorem find?_first_enabled (steps : List LadderStep) (j : ℕ) (hj : j < steps.length)
    (hpj : (steps.get ⟨j, hj⟩).enabled = true)
    (hmin : ∀ k (hk : k < steps.length), k < j → ¬ (steps.get ⟨k, hk⟩).enabled = true) :
    steps.find? (fun st => st.enabled) = some (steps.get ⟨j, hj⟩) := by
  induction steps generalizing j with
  | nil => simp at hj
  | cons hd tl ih =>
    cases j with
    | zero =>
      simp only [List.get] at hpj
      simp [List.find?, hpj]
    | succ j' =>
      have hhd : ¬ hd.enabled = true := by
        have := hmin 0 (by simp) (by omega)
        simpa using this
      have hj' : j' < tl.length := by simpa using hj
      have hrec := ih j' hj' (by simpa using hpj) ?_
      · simp only [List.find?]
        rw [Bool.of_not_eq_true hhd]
        simpa using hrec
      · intro k hk hlt
        have := hmin (k + 1) (by simpa using Nat.succ_lt_succ hk) (by omega)
        simpa using this

/-- stepDispatch leaves everything but the scan position unchanged when
the next actionable step is a buy whose trigger condition fails. -/
theorem stepDispatch_buy_noop (config : BacktestConfig) (tick : PriceTick)
    (ladderSteps : List LadderStep) (s : BacktestEngine.EngineState)
    (l l1 : BacktestEngine.LadderState) (st : LadderStep)
    (hl : s.ladderState = some l)
    (hga : BacktestEngine.getActiveStep l ladderSteps = (l1, some st))
    (hphase : l1.currentStepPhase = StepPhase.buy)
    (hcond : ¬(0 < tick.bestAsk ∧ tick.bestAsk ≤ st.buy.triggerPrice)) :
    BacktestEngine.stepDispatch config tick ladderSteps s
      = { s with ladderState := some l1 } := by
  simp [BacktestEngine.stepDispatch, hl, hga, hphase, hcond]

/-- C3: in the just-reset (post-stop-loss) ladder configuration, while
needsRecovery is set the tick processor is an exact no-op whenever the
ask is at or below the first enabled step's buy trigger (or not a valid
positive price), so no buy can fire; and once the ask rises strictly
above that trigger the gate is released: needsRecovery is cleared with
the step bookkeeping still empty (progression restarts at step 0), and
no buy fires on the releasing tick itself (shares, balance and trades
unchanged). -/
theorem recovery_gate_blocks_and_releases (config : BacktestConfig) (dateNow : ℤ)
    (tick : PriceTick) (ladderSteps : List LadderStep) (s : BacktestEngine.EngineState)
    (l : BacktestEngine.LadderState) (firstStep : LadderStep)
    (hl : s.ladderState = some l)
    (hnr : l.needsRecovery = true)
    (hstatus : l.status = LadderStatus.active)
    (hph : l.currentStepPhase = StepPhase.buy)
    (hidx : l.currentStepIndex = 0)
    (hcs : l.completedSteps = [])
    (hsk : l.skippedSteps = [])
    (hopen : BacktestEngine.getOpenLadderShares l ≤ 0.01)
    (hfind : ladderSteps.find? (fun st => st.enabled) = some firstStep) :
    (tick.bestAsk ≤ firstStep.buy.triggerPrice ∨ tick.bestAsk ≤ 0 →
      BacktestEngine.processLadderStateTick config dateNow tick ladderSteps s = s) ∧
    (firstStep.buy.triggerPrice < tick.bestAsk → 0 < tick.bestAsk →
      (BacktestEngine.processLadderStateTick config dateNow tick ladderSteps s).trades
          = s.trades ∧
      (BacktestEngine.processLadderStateTick config dateNow tick ladderSteps s).balance
          = s.balance ∧
      ∃ l₂, (BacktestEngine.processLadderStateTick config dateNow tick ladderSteps s).ladderState
            = some l₂ ∧
        l₂.needsRecovery = false ∧ l₂.totalShares = l.totalShares ∧
        l₂.completedSteps = [] ∧ l₂.skippedSteps = []) := by
  have hnostop : BacktestEngine.processLadderStateTick config dateNow tick ladderSteps s
      = BacktestEngine.ladderStepLogic config tick ladderSteps s := by
    simp only [BacktestEngine.processLadderStateTick, hl]
    split
    · rw [if_neg]
      rintro ⟨hs1, -⟩
      exact absurd hs1 (not_lt.mpr hopen)
    · rfl
  rw [hnostop]
  constructor
  · intro hblock
    have hcond : ¬(0 < tick.bestAsk ∧ firstStep.buy.triggerPrice < tick.bestAsk) := by
      rintro ⟨hpos, htrig⟩
      rcases hblock with h | h
      · exact absurd htrig (not_lt.mpr h)
      · exact absurd hpos (not_lt.mpr h)
    simp [BacktestEngine.ladderStepLogic, hl, hstatus, hnr, hfind, hcond]
  · intro htrig hpos
    have hrel : BacktestEngine.ladderStepLogic config tick ladderSteps s
        = BacktestEngine.stepDispatch config tick ladderSteps
            { s with ladderState := some ({ l with needsRecovery := false, lastStepTime := tick.timestamp }) } := by
      simp [BacktestEngine.ladderStepLogic, hl, hstatus, hnr, hfind, htrig, hpos]
    rw [hrel]
    set l₁ : BacktestEngine.LadderState :=
      ({ l with needsRecovery := false, lastStepTime := tick.timestamp }) with hl₁
    have hidx₁ : l₁.currentStepIndex = 0 := by simp [hl₁, hidx]
    have hspec := getActiveStep_spec l₁ ladderSteps
    cases hga : (BacktestEngine.getActiveStep l₁ ladderSteps).2 with
    | none =>
      exfalso
      obtain ⟨⟨jf, hjf⟩, hgetf⟩ := List.mem_iff_get.mp (List.mem_of_find?_eq_some hfind)
      have henf : firstStep.enabled = true := by
        have := List.find?_some hfind
        simpa using this
      refine hspec.1 hga jf hjf (by simp [hidx]) ⟨?_, ?_, ?_⟩
      · rw [hgetf]
        exact henf
      · simp [hl₁, hcs]
      · simp [hl₁, hsk]
    | some st₂ =>
      obtain ⟨j, hj, hge, hget, hact, hstate, hmin⟩ := hspec.2 st₂ hga
      have hst₂ : st₂ = firstStep := by
        have h1 : ladderSteps.find? (fun st => st.enabled)
            = some (ladderSteps.get ⟨j, hj⟩) := by
          apply find?_first_enabled
          · rw [hget]
            exact hact.1
          · intro k hk hlt hen
            refine hmin k hk (by simp [hidx]) hlt ⟨hen, ?_, ?_⟩
            · simp [hl₁, hcs]
            · simp [hl₁, hsk]
        rw [hget, hfind] at h1
        exact (Option.some_inj.mp h1).symm
      have hpair : BacktestEngine.getActiveStep l₁ ladderSteps
          = ({ l₁ with currentStepIndex := j }, some st₂) := by
        cases hgap : BacktestEngine.getActiveStep l₁ ladderSteps with
        | mk fst snd =>
          rw [hgap] at hstate hga
          simp only at hstate hga
          rw [hstate, hga]
      have hnd := stepDispatch_buy_noop config tick ladderSteps
        { s with ladderState := some l₁ } l₁ { l₁ with currentStepIndex := j } st₂
        rfl hpair (by simp [hl₁, hph]) ?_
      · rw [hnd]
        refine ⟨rfl, rfl, _, rfl, ?_, ?_, ?_, ?_⟩
        · simp [hl₁]
        · simp [hl₁]
        · simp [hl₁, hcs]
        · simp [hl₁, hsk]
      · rw [hst₂]
        rintro ⟨-, hle⟩
        exact absurd htrig (not_lt.mpr hle)

/-- Witness for C3 at the spec's numbers: after a stop-loss reset with
first-step trigger 0.60, an ask of 0.59 is a strict no-op, and an ask of
0.61 clears the recovery gate. -/
theorem recovery_gate_blocks_and_releases_witness :
    BacktestEngine.processLadderStateTick { entryThreshold := 0.5, maxEntryPrice := 0.9, stopLoss := 0.4, maxSpread := 0.05, timeWindowMs := 900000, profitTarget := 0.99, startingBalance := 100, slippage := 0, compoundLimit := 0, baseBalance := 10, riskMode := RiskMode.ladder, ladderSteps := [{ id := "step1", stopLoss := 0.4, buy := { triggerPrice := 0.6, sizeType := SizeType.percent, sizeValue := 100 }, sell := { triggerPrice := 0.7, sizeType := SizeType.percent, sizeValue := 100 }, enabled := true }] } 0 { timestamp := 300000, tokenId := "tok", marketSlug := "mkt", bestBid := 0.58, bestAsk := 0.59, midPrice := 0.585 } [{ id := "step1", stopLoss := 0.4, buy := { triggerPrice := 0.6, sizeType := SizeType.percent, sizeValue := 100 }, sell := { triggerPrice := 0.7, sizeType := SizeType.percent, sizeValue := 100 }, enabled := true }] { balance := 40, savedProfit := 0, position := none, ladderState := some { tokenId := "tok", side := Side.UP, marketSlug := "mkt", marketEndDate := 900000, currentStepIndex := 0, currentStepPhase := StepPhase.buy, completedSteps := [], skippedSteps := [], skippedReasons := [], totalShares := 0, totalCostBasis := 0, averageEntryPrice := 0, totalSharesSold := 0, totalSellProceeds := 0, ladderStartTime := 0, lastStepTime := 240000, lastStepPrice := 0, needsRecovery := true, status := LadderStatus.active }, ladderMarketLocks := [], trades := [], equityCurve := [], peakBalance := 100, lastTrade := none } = { balance := 40, savedProfit := 0, position := none, ladderState := some { tokenId := "tok", side := Side.UP, marketSlug := "mkt", marketEndDate := 900000, currentStepIndex := 0, currentStepPhase := StepPhase.buy, completedSteps := [], skippedSteps := [], skippedReasons := [], totalShares := 0, totalCostBasis := 0, averageEntryPrice := 0, totalSharesSold := 0, totalSellProceeds := 0, ladderStartTime := 0, lastStepTime := 240000, lastStepPrice := 0, needsRecovery := true, status := LadderStatus.active }, ladderMarketLocks := [], trades := [], equityCurve := [], peakBalance := 100, lastTrade := none } ∧
    ((BacktestEngine.processLadderStateTick { entryThreshold := 0.5, maxEntryPrice := 0.9, stopLoss := 0.4, maxSpread := 0.05, timeWindowMs := 900000, profitTarget := 0.99, startingBalance := 100, slippage := 0, compoundLimit := 0, baseBalance := 10, riskMode := RiskMode.ladder, ladderSteps := [{ id := "step1", stopLoss := 0.4, buy := { triggerPrice := 0.6, sizeType := SizeType.percent, sizeValue := 100 }, sell := { triggerPrice := 0.7, sizeType := SizeType.percent, sizeValue := 100 }, enabled := true }] } 0 { timestamp := 360000, tokenId := "tok", marketSlug := "mkt", bestBid := 0.60, bestAsk := 0.61, midPrice := 0.605 } [{ id := "step1", stopLoss := 0.4, buy := { triggerPrice := 0.6, sizeType := SizeType.percent, sizeValue := 100 }, sell := { triggerPrice := 0.7, sizeType := SizeType.percent, sizeValue := 100 }, enabled := true }] { balance := 40, savedProfit := 0, position := none, ladderState := some { tokenId := "tok", side := Side.UP, marketSlug := "mkt", marketEndDate := 900000, currentStepIndex := 0, currentStepPhase := StepPhase.buy, completedSteps := [], skippedSteps := [], skippedReasons := [], totalShares := 0, totalCostBasis := 0, averageEntryPrice := 0, totalSharesSold := 0, totalSellProceeds := 0, ladderStartTime := 0, lastStepTime := 240000, lastStepPrice := 0, needsRecovery := true, status := LadderStatus.active }, ladderMarketLocks := [], trades := [], equityCurve := [], peakBalance := 100, lastTrade := none }).ladderState.map
        (fun l => l.needsRecovery)) = some false := by
  constructor
  · exact (recovery_gate_blocks_and_releases { entryThreshold := 0.5, maxEntryPrice := 0.9, stopLoss := 0.4, maxSpread := 0.05, timeWindowMs := 900000, profitTarget := 0.99, startingBalance := 100, slippage := 0, compoundLimit := 0, baseBalance := 10, riskMode := RiskMode.ladder, ladderSteps := [{ id := "step1", stopLoss := 0.4, buy := { triggerPrice := 0.6, sizeType := SizeType.percent, sizeValue := 100 }, sell := { triggerPrice := 0.7, sizeType := SizeType.percent, sizeValue := 100 }, enabled := true }] } 0 { timestamp := 300000, tokenId := "tok", marketSlug := "mkt", bestBid := 0.58, bestAsk := 0.59, midPrice := 0.585 } [{ id := "step1", stopLoss := 0.4, buy := { triggerPrice := 0.6, sizeType := SizeType.percent, sizeValue := 100 }, sell := { triggerPrice := 0.7, sizeType := SizeType.percent, sizeValue := 100 }, enabled := true }] { balance := 40, savedProfit := 0, position := none, ladderState := some { tokenId := "tok", side := Side.UP, marketSlug := "mkt", marketEndDate := 900000, currentStepIndex := 0, currentStepPhase := StepPhase.buy, completedSteps := [], skippedSteps := [], skippedReasons := [], totalShares := 0, totalCostBasis := 0, averageEntryPrice := 0, totalSharesSold := 0, totalSellProceeds := 0, ladderStartTime := 0, lastStepTime := 240000, lastStepPrice := 0, needsRecovery := true, status := LadderStatus.active }, ladderMarketLocks := [], trades := [], equityCurve := [], peakBalance := 100, lastTrade := none } { tokenId := "tok", side := Side.UP, marketSlug := "mkt", marketEndDate := 900000, currentStepIndex := 0, currentStepPhase := StepPhase.buy, completedSteps := [], skippedSteps := [], skippedReasons := [], totalShares := 0, totalCostBasis := 0, averageEntryPrice := 0, totalSharesSold := 0, totalSellProceeds := 0, ladderStartTime := 0, lastStepTime := 240000, lastStepPrice := 0, needsRecovery := true, status := LadderStatus.active } { id := "step1", stopLoss := 0.4, buy := { triggerPrice := 0.6, sizeType := SizeType.percent, sizeValue := 100 }, sell := { triggerPrice := 0.7, sizeType := SizeType.percent, sizeValue := 100 }, enabled := true }
      rfl rfl rfl rfl rfl rfl rfl (by norm_num [BacktestEngine.getOpenLadderShares]) rfl).1
      (Or.inl (by norm_num))
  · obtain ⟨-, -, l₂, hl₂, hnr, -⟩ :=
      (recovery_gate_blocks_and_releases { entryThreshold := 0.5, maxEntryPrice := 0.9, stopLoss := 0.4, maxSpread := 0.05, timeWindowMs := 900000, profitTarget := 0.99, startingBalance := 100, slippage := 0, compoundLimit := 0, baseBalance := 10, riskMode := RiskMode.ladder, ladderSteps := [{ id := "step1", stopLoss := 0.4, buy := { triggerPrice := 0.6, sizeType := SizeType.percent, sizeValue := 100 }, sell := { triggerPrice := 0.7, sizeType := SizeType.percent, sizeValue := 100 }, enabled := true }] } 0 { timestamp := 360000, tokenId := "tok", marketSlug := "mkt", bestBid := 0.60, bestAsk := 0.61, midPrice := 0.605 } [{ id := "step1", stopLoss := 0.4, buy := { triggerPrice := 0.6, sizeType := SizeType.percent, sizeValue := 100 }, sell := { triggerPrice := 0.7, sizeType := SizeType.percent, sizeValue := 100 }, enabled := true }] { balance := 40, savedProfit := 0, position := none, ladderState := some { tokenId := "tok", side := Side.UP, marketSlug := "mkt", marketEndDate := 900000, currentStepIndex := 0, currentStepPhase := StepPhase.buy, completedSteps := [], skippedSteps := [], skippedReasons := [], totalShares := 0, totalCostBasis := 0, averageEntryPrice := 0, totalSharesSold := 0, totalSellProceeds := 0, ladderStartTime := 0, lastStepTime := 240000, lastStepPrice := 0, needsRecovery := true, status := LadderStatus.active }, ladderMarketLocks := [], trades := [], equityCurve := [], peakBalance := 100, lastTrade := none } { tokenId := "tok", side := Side.UP, marketSlug := "mkt", marketEndDate := 900000, currentStepIndex := 0, currentStepPhase := StepPhase.buy, completedSteps := [], skippedSteps := [], skippedReasons := [], totalShares := 0, totalCostBasis := 0, averageEntryPrice := 0, totalSharesSold := 0, totalSellProceeds := 0, ladderStartTime := 0, lastStepTime := 240000, lastStepPrice := 0, needsRecovery := true, status := LadderStatus.active } { id := "step1", stopLoss := 0.4, buy := { triggerPrice := 0.6, sizeType := SizeType.percent, sizeValue := 100 }, sell := { triggerPrice := 0.7, sizeType := SizeType.percent, sizeValue := 100 }, enabled := true }
        rfl rfl rfl rfl rfl rfl rfl (by norm_num [BacktestEngine.getOpenLadderShares]) rfl).2
        (by norm_num) (by norm_num)
    rw [hl₂]
    simp [hnr]

/-- Counterexample for C4 as stated: with the triggering ask exactly equal
to the first enabled step's buy trigger (0.60), which is not above it, a
new ladder is nevertheless created (and its first buy even fires, being
within the 0.005 tolerance). -/
theorem ladder_entry_at_trigger_counterexample :
    ((0.6:ℚ) ≤ 0.6) ∧
    (BacktestEngine.processLadderTick
      { entryThreshold := 0.5, maxEntryPrice := 0.9, stopLoss := 0.4, maxSpread := 0.05, timeWindowMs := 900000, profitTarget := 0.99, startingBalance := 100, slippage := 0, compoundLimit := 0, baseBalance := 10, riskMode := RiskMode.ladder, ladderSteps := [{ id := "step1", stopLoss := 0.4, buy := { triggerPrice := 0.6, sizeType := SizeType.percent, sizeValue := 100 }, sell := { triggerPrice := 0.7, sizeType := SizeType.percent, sizeValue := 100 }, enabled := true }] }
      0
      { timestamp := 60000, tokenId := "tokUp", marketSlug := "mkt", bestBid := 0.59, bestAsk := 0.6, midPrice := 0.595 }
      { slug := "mkt", question := "q", startDate := 0, endDate := 900000, upTokenId := "tokUp", downTokenId := "tokDown", outcome := none, priceTicks := [] }
      { balance := 100, savedProfit := 0, position := none, ladderState := none, ladderMarketLocks := [], trades := [], equityCurve := [], peakBalance := 100, lastTrade := none }).ladderState.map
        (fun l => l.totalShares) = some (100 / 0.6) := by
  refine ⟨le_refl _, ?_⟩
  norm_num [BacktestEngine.processLadderTick, BacktestEngine.initializeLadderState,
    BacktestEngine.executeLadderBuyStep, BacktestEngine.calculateStepSize,
    BacktestEngine.skipLadderStep, BacktestEngine.sideFor, BacktestEngine.isLastTradeWin]

/-- C4 (amended): with no active ladder, the processor creates a ladder
only if the market is not lock-protected and the ask is at or above the
first enabled step's buy trigger (it returns the state unchanged when the
market is locked or the ask is strictly below the trigger); when all the
entry filters pass, the ladder is created, and if the ask is within the
0.005 tolerance of the trigger the first buy step is executed on that
same tick, otherwise the ladder is left waiting in the buy phase with the
freshly initialised (zero-share) state. -/
theorem ladder_entry_gating (config : BacktestConfig) (dateNow : ℤ) (tick : PriceTick)
    (market : HistoricalMarket) (s : BacktestEngine.EngineState) (firstStep : LadderStep)
    (hln : s.ladderState = none)
    (hfind : config.ladderSteps.find? (fun st => st.enabled) = some firstStep) :
    (market.slug ∈ s.ladderMarketLocks →
      BacktestEngine.processLadderTick config dateNow tick market s = s) ∧
    (tick.bestAsk < firstStep.buy.triggerPrice →
      BacktestEngine.processLadderTick config dateNow tick market s = s) ∧
    (1 ≤ s.balance → market.slug ∉ s.ladderMarketLocks →
      0 < market.endDate - tick.timestamp →
      market.endDate - tick.timestamp ≤ config.timeWindowMs →
      tick.bestAsk - tick.bestBid ≤ config.maxSpread →
      config.entryThreshold ≤ tick.bestAsk →
      tick.bestAsk ≤ config.maxEntryPrice →
      BacktestEngine.isLastTradeWin s.lastTrade market.slug
          (BacktestEngine.sideFor tick market) = false →
      firstStep.buy.triggerPrice ≤ tick.bestAsk →
      ((|tick.bestAsk - firstStep.buy.triggerPrice| ≤ 0.005 →
        BacktestEngine.processLadderTick config dateNow tick market s
          = BacktestEngine.executeLadderBuyStep config tick firstStep
              { s with ladderState := some ({ BacktestEngine.initializeLadderState dateNow tick.tokenId (BacktestEngine.sideFor tick market) market.slug market.endDate with lastStepPrice := tick.bestAsk, lastStepTime := tick.timestamp }) }) ∧
       (¬(|tick.bestAsk - firstStep.buy.triggerPrice| ≤ 0.005) →
        BacktestEngine.processLadderTick config dateNow tick market s
          = { s with ladderState := some ({ BacktestEngine.initializeLadderState dateNow tick.tokenId (BacktestEngine.sideFor tick market) market.slug market.endDate with lastStepPrice := tick.bestAsk, lastStepTime := tick.timestamp }) }))) := by
  have hne : ¬(config.ladderSteps = []) := by
    intro h
    rw [h] at hfind
    simp at hfind
  refine ⟨?_, ?_, ?_⟩
  · intro hlock
    simp [BacktestEngine.processLadderTick, hln, hlock]
  · intro hlt
    simp [BacktestEngine.processLadderTick, hln, hfind, hlt]
  · intro hbal hnlock ht1 ht2 hspread hthr hmax hlw htrig
    have hbal' : ¬(s.balance < 1) := not_lt.mpr hbal
    have ht1' : ¬(market.endDate - tick.timestamp ≤ 0) := not_le.mpr ht1
    have ht2' : ¬(market.endDate - tick.timestamp > config.timeWindowMs) := not_lt.mpr ht2
    have hspread' : ¬(tick.bestAsk - tick.bestBid > config.maxSpread) := not_lt.mpr hspread
    have hthr' : ¬(tick.bestAsk < config.entryThreshold) := not_lt.mpr hthr
    have hmax' : ¬(tick.bestAsk > config.maxEntryPrice) := not_lt.mpr hmax
    have htrig' : ¬(tick.bestAsk < firstStep.buy.triggerPrice) := not_lt.mpr htrig
    constructor
    · intro htol
      simp [BacktestEngine.processLadderTick, hln, hne, hbal', hnlock, ht1', ht2',
        hspread', hthr', hmax', hlw, hfind, htrig', htol]
    · intro htol
      simp [BacktestEngine.processLadderTick, hln, hne, hbal', hnlock, ht1', ht2',
        hspread', hthr', hmax', hlw, hfind, htrig', htol]

/-- Witness for C4: at ask 0.65, above the 0.60 trigger and outside the
tolerance, the ladder is created waiting in the buy phase with zero
shares. -/
theorem ladder_entry_gating_witness :
    ((BacktestEngine.processLadderTick { entryThreshold := 0.5, maxEntryPrice := 0.9, stopLoss := 0.4, maxSpread := 0.05, timeWindowMs := 900000, profitTarget := 0.99, startingBalance := 100, slippage := 0, compoundLimit := 0, baseBalance := 10, riskMode := RiskMode.ladder, ladderSteps := [{ id := "step1", stopLoss := 0.4, buy := { triggerPrice := 0.6, sizeType := SizeType.percent, sizeValue := 100 }, sell := { triggerPrice := 0.7, sizeType := SizeType.percent, sizeValue := 100 }, enabled := true }] } 0 { timestamp := 60000, tokenId := "tokUp", marketSlug := "mkt", bestBid := 0.64, bestAsk := 0.65, midPrice := 0.645 } { slug := "mkt", question := "q", startDate := 0, endDate := 900000, upTokenId := "tokUp", downTokenId := "tokDown", outcome := none, priceTicks := [] } { balance := 100, savedProfit := 0, position := none, ladderState := none, ladderMarketLocks := [], trades := [], equityCurve := [], peakBalance := 100, lastTrade := none }).ladderState.map
      (fun l => (l.totalShares, l.currentStepPhase))) = some ((0:ℚ), StepPhase.buy) := by
  have h := (ladder_entry_gating { entryThreshold := 0.5, maxEntryPrice := 0.9, stopLoss := 0.4, maxSpread := 0.05, timeWindowMs := 900000, profitTarget := 0.99, startingBalance := 100, slippage := 0, compoundLimit := 0, baseBalance := 10, riskMode := RiskMode.ladder, ladderSteps := [{ id := "step1", stopLoss := 0.4, buy := { triggerPrice := 0.6, sizeType := SizeType.percent, sizeValue := 100 }, sell := { triggerPrice := 0.7, sizeType := SizeType.percent, sizeValue := 100 }, enabled := true }] } 0 { timestamp := 60000, tokenId := "tokUp", marketSlug := "mkt", bestBid := 0.64, bestAsk := 0.65, midPrice := 0.645 } { slug := "mkt", question := "q", startDate := 0, endDate := 900000, upTokenId := "tokUp", downTokenId := "tokDown", outcome := none, priceTicks := [] } { balance := 100, savedProfit := 0, position := none, ladderState := none, ladderMarketLocks := [], trades := [], equityCurve := [], peakBalance := 100, lastTrade := none } { id := "step1", stopLoss := 0.4, buy := { triggerPrice := 0.6, sizeType := SizeType.percent, sizeValue := 100 }, sell := { triggerPrice := 0.7, sizeType := SizeType.percent, sizeValue := 100 }, enabled := true } rfl rfl).2.2
    (by norm_num) (by simp) (by norm_num) (by norm_num) (by norm_num) (by norm_num)
    (by norm_num) rfl (by norm_num)
  rw [h.2 (by norm_num [abs_le])]
  simp [BacktestEngine.initializeLadderState]

/-- Counterexample for C8 as stated: the most recent trade in the same
market on the UP side closed exactly at the profit target 0.99 (a win in
the claim's sense of closing at or above the profit target) but with zero
PnL - reachable, since with slippage 0.01 an entry at ask 0.985 is priced
at the 0.99 cap, and the profit-target exit then realises 0.99 as well.
The entry check nevertheless opens a new UP position in that market: the
code keys the rule on positive PnL, not on the exit price. -/
theorem opposite_side_win_boundary_counterexample :
    ((0.99:ℚ) ≥ 0.99 ∧ (0:ℚ) ≥ 0) ∧
    (BacktestEngine.checkEntry { entryThreshold := 0.7, maxEntryPrice := 0.98, stopLoss := 0.4, maxSpread := 0.03, timeWindowMs := 900000, profitTarget := 0.99, startingBalance := 100, slippage := 0.01, compoundLimit := 0, baseBalance := 10, riskMode := RiskMode.normal, ladderSteps := [] } { timestamp := 60000, tokenId := "tokUp", marketSlug := "mkt", bestBid := 0.94, bestAsk := 0.95, midPrice := 0.945 } { slug := "mkt", question := "q", startDate := 0, endDate := 900000, upTokenId := "tokUp", downTokenId := "tokDown", outcome := none, priceTicks := [] } { balance := 100, savedProfit := 0, position := none, ladderState := none, ladderMarketLocks := [], trades := [{ marketSlug := "mkt", tokenId := "tokUp", side := Side.UP, entryPrice := 0.99, exitPrice := 0.99, shares := 101, entryTimestamp := 0, exitTimestamp := 30000, exitReason := ExitReason.PROFIT_TARGET, pnl := 0, ladderStepId := none }], equityCurve := [], peakBalance := 100, lastTrade := some { marketSlug := "mkt", tokenId := "tokUp", side := Side.UP, entryPrice := 0.99, exitPrice := 0.99, shares := 101, entryTimestamp := 0, exitTimestamp := 30000, exitReason := ExitReason.PROFIT_TARGET, pnl := 0, ladderStepId := none } }).position ≠ none := by
  refine ⟨⟨le_refl _, le_refl _⟩, ?_⟩
  norm_num [BacktestEngine.checkEntry, BacktestEngine.executeEntry, BacktestEngine.sideFor,
    BacktestEngine.isLastTradeWin]
  simp

/-- C8 (amended): entry on a side is suppressed when the most recent
recorded trade was in the same market, on the same side, and had strictly
positive PnL; when that is not the case (in particular after a losing
stop-loss, whose PnL is not positive), the side remains eligible and the
entry is taken once all filters pass. -/
theorem opposite_side_pnl_rule (config : BacktestConfig) (tick : PriceTick)
    (market : HistoricalMarket) (s : BacktestEngine.EngineState) (lt : BacktestTrade)
    (hlast : s.lastTrade = some lt) :
    (lt.marketSlug = market.slug → lt.side = BacktestEngine.sideFor tick market →
      0 < lt.pnl → BacktestEngine.checkEntry config tick market s = s) ∧
    (¬(lt.marketSlug = market.slug ∧ lt.side = BacktestEngine.sideFor tick market ∧ 0 < lt.pnl) →
      0 < market.endDate - tick.timestamp →
      market.endDate - tick.timestamp ≤ config.timeWindowMs →
      tick.bestAsk - tick.bestBid ≤ config.maxSpread →
      config.entryThreshold ≤ tick.bestAsk →
      tick.bestAsk ≤ config.maxEntryPrice →
      tick.bestAsk < config.profitTarget →
      (BacktestEngine.checkEntry config tick market s).position
        = some ({ tokenId := tick.tokenId, marketSlug := market.slug, side := BacktestEngine.sideFor tick market, shares := s.balance / min (tick.bestAsk * (1 + config.slippage)) 0.99, entryPrice := min (tick.bestAsk * (1 + config.slippage)) 0.99, entryTimestamp := tick.timestamp })) := by
  constructor
  · intro hm hs hp
    have hw : BacktestEngine.isLastTradeWin s.lastTrade market.slug
        (BacktestEngine.sideFor tick market) = true := by
      simp [BacktestEngine.isLastTradeWin, hlast, hm, hs, hp]
    simp [BacktestEngine.checkEntry, hw]
  · intro hnot ht1 ht2 hspread hthr hmax hpt
    have hlw : BacktestEngine.isLastTradeWin s.lastTrade market.slug
        (BacktestEngine.sideFor tick market) = false := by
      simpa [BacktestEngine.isLastTradeWin, hlast, not_and_or] using hnot
    have ht1x : ¬(market.endDate - tick.timestamp ≤ 0) := not_le.mpr ht1
    have ht2x : ¬(market.endDate - tick.timestamp > config.timeWindowMs) := not_lt.mpr ht2
    have hspreadx : ¬(tick.bestAsk - tick.bestBid > config.maxSpread) := not_lt.mpr hspread
    have hthrx : ¬(tick.bestAsk < config.entryThreshold) := not_lt.mpr hthr
    have hmaxx : ¬(tick.bestAsk > config.maxEntryPrice) := not_lt.mpr hmax
    have hptx : ¬(tick.bestAsk ≥ config.profitTarget) := not_le.mpr hpt
    simp [BacktestEngine.checkEntry, BacktestEngine.executeEntry, hlw, ht1x, ht2x,
      hspreadx, hthrx, hmaxx, hptx]

/-- Witness for C8: after a losing stop-loss on the same side and market
(PnL -40), the side stays eligible and the entry is taken. -/
theorem opposite_side_pnl_rule_witness :
    (BacktestEngine.checkEntry { entryThreshold := 0.7, maxEntryPrice := 0.98, stopLoss := 0.4, maxSpread := 0.03, timeWindowMs := 900000, profitTarget := 0.99, startingBalance := 100, slippage := 0.01, compoundLimit := 0, baseBalance := 10, riskMode := RiskMode.normal, ladderSteps := [] } { timestamp := 60000, tokenId := "tokUp", marketSlug := "mkt", bestBid := 0.94, bestAsk := 0.95, midPrice := 0.945 } { slug := "mkt", question := "q", startDate := 0, endDate := 900000, upTokenId := "tokUp", downTokenId := "tokDown", outcome := none, priceTicks := [] } { balance := 40, savedProfit := 0, position := none, ladderState := none, ladderMarketLocks := [], trades := [{ marketSlug := "mkt", tokenId := "tokUp", side := Side.UP, entryPrice := 0.8, exitPrice := 0.4, shares := 100, entryTimestamp := 0, exitTimestamp := 30000, exitReason := ExitReason.STOP_LOSS, pnl := -40, ladderStepId := none }], equityCurve := [], peakBalance := 100, lastTrade := some { marketSlug := "mkt", tokenId := "tokUp", side := Side.UP, entryPrice := 0.8, exitPrice := 0.4, shares := 100, entryTimestamp := 0, exitTimestamp := 30000, exitReason := ExitReason.STOP_LOSS, pnl := -40, ladderStepId := none } }).position.isSome = true := by
  have h := (opposite_side_pnl_rule { entryThreshold := 0.7, maxEntryPrice := 0.98, stopLoss := 0.4, maxSpread := 0.03, timeWindowMs := 900000, profitTarget := 0.99, startingBalance := 100, slippage := 0.01, compoundLimit := 0, baseBalance := 10, riskMode := RiskMode.normal, ladderSteps := [] } { timestamp := 60000, tokenId := "tokUp", marketSlug := "mkt", bestBid := 0.94, bestAsk := 0.95, midPrice := 0.945 } { slug := "mkt", question := "q", startDate := 0, endDate := 900000, upTokenId := "tokUp", downTokenId := "tokDown", outcome := none, priceTicks := [] } { balance := 40, savedProfit := 0, position := none, ladderState := none, ladderMarketLocks := [], trades := [{ marketSlug := "mkt", tokenId := "tokUp", side := Side.UP, entryPrice := 0.8, exitPrice := 0.4, shares := 100, entryTimestamp := 0, exitTimestamp := 30000, exitReason := ExitReason.STOP_LOSS, pnl := -40, ladderStepId := none }], equityCurve := [], peakBalance := 100, lastTrade := some { marketSlug := "mkt", tokenId := "tokUp", side := Side.UP, entryPrice := 0.8, exitPrice := 0.4, shares := 100, entryTimestamp := 0, exitTimestamp := 30000, exitReason := ExitReason.STOP_LOSS, pnl := -40, ladderStepId := none } } { marketSlug := "mkt", tokenId := "tokUp", side := Side.UP, entryPrice := 0.8, exitPrice := 0.4, shares := 100, entryTimestamp := 0, exitTimestamp := 30000, exitReason := ExitReason.STOP_LOSS, pnl := -40, ladderStepId := none } rfl).2
    (by rintro ⟨-, -, hp⟩; norm_num at hp)
    (by norm_num) (by norm_num) (by norm_num) (by norm_num) (by norm_num) (by norm_num)
  rw [h]
  rfl

/-- The guard release of the live stop-loss path removes the token from
pendingExits. -/
theorem releaseExitGuard_not_mem (tokenId : String) (s : Bot.BotState) :
    tokenId ∉ (Bot.releaseExitGuard tokenId s).pendingExits := by
  simp [Bot.releaseExitGuard, List.mem_filter]

/-- C9: the live ladder stop-loss executor checks-and-takes the per-token
exit guard as its first (synchronous) action, so a second trigger for the
same token that runs at any point while the guard is held is an exact
no-op - it records no trade, and leaves positions, ladder state, balance
and the trades table unchanged - and on every completion path, including
the failed-market-sell and failed-balance-fetch oracle outcomes, the
finally-block release leaves the guard free again. Together with the
first-trigger path this yields exactly one close and one balance update
for two simultaneous triggers. -/
theorem ladder_stoploss_guard_noop_and_release (config : Bot.Config) (dateNow : ℤ)
    (sellResult newBalance : Option ℚ) (tokenId : String) (currentBid : ℚ)
    (s : Bot.BotState) :
    (tokenId ∈ s.pendingExits →
      Bot.executeLadderStopLoss config dateNow sellResult newBalance tokenId currentBid s = s) ∧
    (tokenId ∉ s.pendingExits →
      tokenId ∉ (Bot.executeLadderStopLoss config dateNow sellResult newBalance
        tokenId currentBid s).pendingExits) := by
  constructor
  · intro h
    unfold Bot.executeLadderStopLoss
    rw [if_pos h]
  · intro h
    unfold Bot.executeLadderStopLoss
    rw [if_neg h]
    split
    · exact h
    · dsimp only
      split_ifs <;> first
        | exact releaseExitGuard_not_mem _ _
        | (split <;> exact releaseExitGuard_not_mem _ _)

/-- Witness for C9: with the exit guard for "tok" already held, a second
stop-loss trigger for "tok" leaves the whole bot state (balance,
positions, ladder, trades table) untouched. -/
theorem ladder_stoploss_guard_noop_and_release_witness :
    Bot.executeLadderStopLoss { paperTrading := true, compoundLimit := 0, baseBalance := 10 } 0 none none "tok" 0.4 { balance := 40, savedProfit := 0, reservedBalance := 0, positions := [], pendingEntries := [], pendingExits := ["tok"], ladderStates := [("tok", { tokenId := "tok", side := Side.UP, marketSlug := "mkt", marketEndDate := 900000, currentStepIndex := 0, currentStepPhase := StepPhase.sell, completedSteps := [], skippedSteps := [], skippedReasons := [], totalShares := 100, totalCostBasis := 60, averageEntryPrice := 0.6, totalSharesSold := 0, totalSellProceeds := 0, ladderStartTime := 0, lastStepTime := 60000, lastStepPrice := 0.6, tradeIds := [1], needsRecovery := false, status := LadderStatus.active })], ladderMarketLocks := [], db := [{ id := 1, tokenId := "tok", shares := 100, costBasis := 60, status := Bot.TradeStatus.OPEN, exitPrice := none, ladderSnapshot := none }] } = { balance := 40, savedProfit := 0, reservedBalance := 0, positions := [], pendingEntries := [], pendingExits := ["tok"], ladderStates := [("tok", { tokenId := "tok", side := Side.UP, marketSlug := "mkt", marketEndDate := 900000, currentStepIndex := 0, currentStepPhase := StepPhase.sell, completedSteps := [], skippedSteps := [], skippedReasons := [], totalShares := 100, totalCostBasis := 60, averageEntryPrice := 0.6, totalSharesSold := 0, totalSellProceeds := 0, ladderStartTime := 0, lastStepTime := 60000, lastStepPrice := 0.6, tradeIds := [1], needsRecovery := false, status := LadderStatus.active })], ladderMarketLocks := [], db := [{ id := 1, tokenId := "tok", shares := 100, costBasis := 60, status := Bot.TradeStatus.OPEN, exitPrice := none, ladderSnapshot := none }] } := by
  exact (ladder_stoploss_guard_noop_and_release { paperTrading := true, compoundLimit := 0, baseBalance := 10 } 0 none none "tok" 0.4 { balance := 40, savedProfit := 0, reservedBalance := 0, positions := [], pendingEntries := [], pendingExits := ["tok"], ladderStates := [("tok", { tokenId := "tok", side := Side.UP, marketSlug := "mkt", marketEndDate := 900000, currentStepIndex := 0, currentStepPhase := StepPhase.sell, completedSteps := [], skippedSteps := [], skippedReasons := [], totalShares := 100, totalCostBasis := 60, averageEntryPrice := 0.6, totalSharesSold := 0, totalSellProceeds := 0, ladderStartTime := 0, lastStepTime := 60000, lastStepPrice := 0.6, tradeIds := [1], needsRecovery := false, status := LadderStatus.active })], ladderMarketLocks := [], db := [{ id := 1, tokenId := "tok", shares := 100, costBasis := 60, status := Bot.TradeStatus.OPEN, exitPrice := none, ladderSnapshot := none }] }).1 (by simp)

/-- Changing only the two clock fields of a ladder does not change the
open-share count. -/
theorem getOpenLadderShares_clock (l : BacktestEngine.LadderState) (a b : ℤ) :
    BacktestEngine.getOpenLadderShares { l with ladderStartTime := a, lastStepTime := b }
      = BacktestEngine.getOpenLadderShares l := rfl

/-- Changing only the two clock fields of a ladder does not change step
sizing. -/
theorem calculateStepSize_clock (side : StepPhase) (leg : LadderStepSideConfig)
    (l : BacktestEngine.LadderState) (a b : ℤ) (bal p : ℚ) :
    BacktestEngine.calculateStepSize side leg { l with ladderStartTime := a, lastStepTime := b } bal p
      = BacktestEngine.calculateStepSize side leg l bal p := by
  cases side <;> cases hleg : leg.sizeType <;> simp [BacktestEngine.calculateStepSize, hleg]

/-- Changing only the two clock fields of a ladder does not change the
stop-loss step scan. -/
theorem findStopLossStepFrom_clock (l : BacktestEngine.LadderState)
    (steps : List LadderStep) (a b : ℤ) (index : ℕ) :
    BacktestEngine.findStopLossStepFrom { l with ladderStartTime := a, lastStepTime := b } steps index
      = BacktestEngine.findStopLossStepFrom l steps index := by
  refine BacktestEngine.findStopLossStepFrom.induct l steps
    (fun index =>
      BacktestEngine.findStopLossStepFrom { l with ladderStartTime := a, lastStepTime := b } steps index
        = BacktestEngine.findStopLossStepFrom l steps index) ?_ ?_ ?_ ?_ index
  · intro x h step hen ih
    conv_lhs => rw [BacktestEngine.findStopLossStepFrom.eq_def]
    conv_rhs => rw [BacktestEngine.findStopLossStepFrom.eq_def]
    simp only [dif_pos h]
    dsimp only
    rw [if_pos hen, if_pos hen]
    exact ih
  · intro x h step hen hmem ih
    conv_lhs => rw [BacktestEngine.findStopLossStepFrom.eq_def]
    conv_rhs => rw [BacktestEngine.findStopLossStepFrom.eq_def]
    simp only [dif_pos h]
    dsimp only
    rw [if_neg hen, if_neg hen, if_pos hmem, if_pos hmem]
    exact ih
  · intro x h step hen hmem
    conv_lhs => rw [BacktestEngine.findStopLossStepFrom.eq_def]
    conv_rhs => rw [BacktestEngine.findStopLossStepFrom.eq_def]
    simp only [dif_pos h]
    dsimp only
    rw [if_neg hen, if_neg hen, if_neg hmem, if_neg hmem]
  · intro x h
    conv_lhs => rw [BacktestEngine.findStopLossStepFrom.eq_def]
    conv_rhs => rw [BacktestEngine.findStopLossStepFrom.eq_def]
    simp only [dif_neg h]

/-- Changing only the two clock fields of a ladder does not change the
active stop-loss step. -/
theorem getActiveStopLossStep_clock (l : BacktestEngine.LadderState)
    (steps : List LadderStep) (a b : ℤ) :
    BacktestEngine.getActiveStopLossStep { l with ladderStartTime := a, lastStepTime := b } steps
      = BacktestEngine.getActiveStopLossStep l steps := by
  simp only [BacktestEngine.getActiveStopLossStep, findStopLossStepFrom_clock]

/-- getActiveStep commutes with changing only the two clock fields. -/
theorem getActiveStep_clock (l : BacktestEngine.LadderState) (steps : List LadderStep)
    (a b : ℤ) :
    BacktestEngine.getActiveStep { l with ladderStartTime := a, lastStepTime := b } steps
      = ({ (BacktestEngine.getActiveStep l steps).1 with ladderStartTime := a, lastStepTime := b },
         (BacktestEngine.getActiveStep l steps).2) := by
  induction l, steps using BacktestEngine.getActiveStep.induct with
  | case1 l steps c d e ih =>
    conv_lhs => rw [BacktestEngine.getActiveStep]
    conv_rhs => rw [BacktestEngine.getActiveStep]
    simp only [dif_pos c]
    dsimp only
    rw [if_pos e, if_pos e]
    exact ih
  | case2 l steps c d e f ih =>
    conv_lhs => rw [BacktestEngine.getActiveStep]
    conv_rhs => rw [BacktestEngine.getActiveStep]
    simp only [dif_pos c]
    dsimp only
    rw [if_neg e, if_neg e, if_pos f, if_pos f]
    exact ih
  | case3 l steps c d e f g ih =>
    conv_lhs => rw [BacktestEngine.getActiveStep]
    conv_rhs => rw [BacktestEngine.getActiveStep]
    simp only [dif_pos c]
    dsimp only
    rw [if_neg e, if_neg e, if_neg f, if_neg f, if_pos g, if_pos g]
    exact ih
  | case4 l steps c d e f g =>
    conv_lhs => rw [BacktestEngine.getActiveStep]
    conv_rhs => rw [BacktestEngine.getActiveStep]
    simp only [dif_pos c]
    dsimp only
    rw [if_neg e, if_neg e, if_neg f, if_neg f, if_neg g, if_neg g]
  | case5 l steps c =>
    conv_lhs => rw [BacktestEngine.getActiveStep]
    conv_rhs => rw [BacktestEngine.getActiveStep]
    simp only [dif_neg c]

/-- The compounding sweep preserves the clock-difference relation. -/
theorem checkCompoundLimit_rel (config : BacktestConfig) {s1 s2 : BacktestEngine.EngineState}
    (h : BacktestEngine.StateRel s1 s2) :
    BacktestEngine.StateRel (BacktestEngine.checkCompoundLimit config s1)
      (BacktestEngine.checkCompoundLimit config s2) := by
  obtain ⟨o, rfl, ho⟩ := h
  unfold BacktestEngine.checkCompoundLimit
  dsimp only
  split_ifs <;> exact ⟨o, rfl, ho⟩

/-- Entry execution preserves the clock-difference relation. -/
theorem executeEntry_rel (config : BacktestConfig) (tick : PriceTick)
    (market : HistoricalMarket) (side : Side) {s1 s2 : BacktestEngine.EngineState}
    (h : BacktestEngine.StateRel s1 s2) :
    BacktestEngine.StateRel (BacktestEngine.executeEntry config tick market side s1)
      (BacktestEngine.executeEntry config tick market side s2) := by
  obtain ⟨o, rfl, ho⟩ := h
  exact ⟨o, rfl, ho⟩

/-- Exit execution preserves the clock-difference relation. -/
theorem executeExit_rel (config : BacktestConfig) (ep : ℚ) (ts : ℤ) (r : ExitReason)
    {s1 s2 : BacktestEngine.EngineState} (h : BacktestEngine.StateRel s1 s2) :
    BacktestEngine.StateRel (BacktestEngine.executeExit config ep ts r s1)
      (BacktestEngine.executeExit config ep ts r s2) := by
  obtain ⟨o, rfl, ho⟩ := h
  unfold BacktestEngine.executeExit
  dsimp only
  split
  · exact ⟨o, rfl, ho⟩
  · exact checkCompoundLimit_rel config ⟨o, rfl, ho⟩

/-- The stop-loss check preserves the clock-difference relation. -/
theorem checkStopLoss_rel (config : BacktestConfig) (tick : PriceTick)
    {s1 s2 : BacktestEngine.EngineState} (h : BacktestEngine.StateRel s1 s2) :
    BacktestEngine.StateRel (BacktestEngine.checkStopLoss config tick s1)
      (BacktestEngine.checkStopLoss config tick s2) := by
  obtain ⟨o, rfl, ho⟩ := h
  unfold BacktestEngine.checkStopLoss
  dsimp only
  split
  · exact ⟨o, rfl, ho⟩
  · split_ifs
    · exact executeExit_rel config _ _ _ ⟨o, rfl, ho⟩
    · exact ⟨o, rfl, ho⟩

/-- The entry check preserves the clock-difference relation. -/
theorem checkEntry_rel (config : BacktestConfig) (tick : PriceTick)
    (market : HistoricalMarket) {s1 s2 : BacktestEngine.EngineState}
    (h : BacktestEngine.StateRel s1 s2) :
    BacktestEngine.StateRel (BacktestEngine.checkEntry config tick market s1)
      (BacktestEngine.checkEntry config tick market s2) := by
  obtain ⟨o, rfl, ho⟩ := h
  unfold BacktestEngine.checkEntry
  dsimp only
  split_ifs <;> exact ⟨o, rfl, ho⟩

/-- Position expiry close preserves the clock-difference relation. -/
theorem closePositionAtExpiry_rel (config : BacktestConfig) (market : HistoricalMarket)
    {s1 s2 : BacktestEngine.EngineState} (h : BacktestEngine.StateRel s1 s2) :
    BacktestEngine.StateRel (BacktestEngine.closePositionAtExpiry config market s1)
      (BacktestEngine.closePositionAtExpiry config market s2) := by
  obtain ⟨o, rfl, ho⟩ := h
  unfold BacktestEngine.closePositionAtExpiry
  dsimp only
  split
  · exact ⟨o, rfl, ho⟩
  · exact executeExit_rel config _ _ _ ⟨o, rfl, ho⟩

/-- OptLadderRel is reflexive. -/
theorem OptLadderRel_refl (o : Option BacktestEngine.LadderState) :
    BacktestEngine.OptLadderRel o o := by
  cases o with
  | none => trivial
  | some l => exact ⟨l.ladderStartTime, l.lastStepTime, rfl, Or.inl rfl⟩

/-- Overwriting the ladder fields of StateRel-related states with
OptLadderRel-related ladders preserves StateRel. -/
theorem StateRel_setLadder {u1 u2 : BacktestEngine.EngineState}
    (h : BacktestEngine.StateRel u1 u2) (o1 o2 : Option BacktestEngine.LadderState)
    (ho : BacktestEngine.OptLadderRel o1 o2) :
    BacktestEngine.StateRel { u1 with ladderState := o1 } { u2 with ladderState := o2 } := by
  obtain ⟨o, rfl, h2⟩ := h
  exact ⟨o2, rfl, ho⟩

/-- Overwriting locks (via a common function of the lock set) and the
ladder fields of StateRel-related states preserves StateRel. -/
theorem StateRel_setLockLad {u1 u2 : BacktestEngine.EngineState}
    (h : BacktestEngine.StateRel u1 u2) (f : List String → List String)
    (o1 o2 : Option BacktestEngine.LadderState) (ho : BacktestEngine.OptLadderRel o1 o2) :
    BacktestEngine.StateRel
      { u1 with ladderMarketLocks := f u1.ladderMarketLocks, ladderState := o1 }
      { u2 with ladderMarketLocks := f u2.ladderMarketLocks, ladderState := o2 } := by
  obtain ⟨o, rfl, h2⟩ := h
  exact ⟨o2, rfl, ho⟩

/-- Recording a ladder trade preserves the clock-difference relation. -/
theorem recordLadderTrade_rel (t : BacktestTrade) {s1 s2 : BacktestEngine.EngineState}
    (h : BacktestEngine.StateRel s1 s2) :
    BacktestEngine.StateRel (BacktestEngine.recordLadderTrade t s1)
      (BacktestEngine.recordLadderTrade t s2) := by
  obtain ⟨o, rfl, ho⟩ := h
  exact ⟨o, rfl, ho⟩

/-- The compounding sweep does not touch the ladder field. -/
theorem checkCompoundLimit_lad (config : BacktestConfig) (s : BacktestEngine.EngineState) :
    (BacktestEngine.checkCompoundLimit config s).ladderState = s.ladderState := by
  unfold BacktestEngine.checkCompoundLimit
  split_ifs <;> rfl

/-- executeExit does not touch the ladder field. -/
theorem executeExit_lad (config : BacktestConfig) (ep : ℚ) (ts : ℤ) (r : ExitReason)
    (s : BacktestEngine.EngineState) :
    (BacktestEngine.executeExit config ep ts r s).ladderState = s.ladderState := by
  unfold BacktestEngine.executeExit
  dsimp only
  split
  · rfl
  · rw [checkCompoundLimit_lad]

/-- closePositionAtExpiry does not touch the ladder field. -/
theorem closePositionAtExpiry_lad (config : BacktestConfig) (market : HistoricalMarket)
    (s : BacktestEngine.EngineState) :
    (BacktestEngine.closePositionAtExpiry config market s).ladderState = s.ladderState := by
  unfold BacktestEngine.closePositionAtExpiry
  dsimp only
  split
  · rfl
  · rw [executeExit_lad]

/-- Ladder expiry close preserves the clock-difference relation. -/
theorem closeLadderAtExpiry_rel (config : BacktestConfig) (market : HistoricalMarket)
    {s1 s2 : BacktestEngine.EngineState} (h : BacktestEngine.StateRel s1 s2) :
    BacktestEngine.StateRel (BacktestEngine.closeLadderAtExpiry config market s1)
      (BacktestEngine.closeLadderAtExpiry config market s2) := by
  obtain ⟨o, rfl, ho⟩ := h
  unfold BacktestEngine.closeLadderAtExpiry
  dsimp only
  rcases hl : s1.ladderState with _ | l1
  · rcases o with _ | l2
    · simp only [hl]
      exact ⟨none, rfl, ho⟩
    · rw [hl] at ho
      exact False.elim ho
  · rcases o with _ | l2
    · rw [hl] at ho
      exact False.elim ho
    · rw [hl] at ho
      obtain ⟨a, b, rfl, hb⟩ := ho
      simp only [hl]
      dsimp only
      split_ifs with hc1 hc2
      · exact ⟨none, rfl, trivial⟩
      · rcases hb with rfl | ⟨hrec, hlt⟩
        · refine StateRel_setLadder (checkCompoundLimit_rel config (recordLadderTrade_rel _ ?_)) none none trivial
          refine ⟨_, rfl, ?_⟩
          exact ⟨a, l1.lastStepTime, rfl, Or.inl rfl⟩
        · exact absurd hlt hc1
      · rcases hb with rfl | ⟨hrec, hlt⟩
        · refine StateRel_setLadder (checkCompoundLimit_rel config (recordLadderTrade_rel _ ?_)) none none trivial
          refine ⟨_, rfl, ?_⟩
          exact ⟨a, l1.lastStepTime, rfl, Or.inl rfl⟩
        · exact absurd hlt hc1

/-- Ladder buy-step execution preserves the clock-difference relation. -/
theorem executeLadderBuyStep_rel (config : BacktestConfig) (tick : PriceTick)
    (step : LadderStep) {s1 s2 : BacktestEngine.EngineState}
    (h : BacktestEngine.StateRel s1 s2) :
    BacktestEngine.StateRel (BacktestEngine.executeLadderBuyStep config tick step s1)
      (BacktestEngine.executeLadderBuyStep config tick step s2) := by
  obtain ⟨o, rfl, ho⟩ := h
  unfold BacktestEngine.executeLadderBuyStep
  rcases hl : s1.ladderState with _ | l1
  · rcases o with _ | l2
    · simp only [hl]
      exact ⟨none, rfl, ho⟩
    · rw [hl] at ho
      exact False.elim ho
  · rcases o with _ | l2
    · rw [hl] at ho
      exact False.elim ho
    · rw [hl] at ho
      obtain ⟨a, b, rfl, hb⟩ := ho
      have hS : BacktestEngine.StateRel s1
          { s1 with ladderState := some { l1 with ladderStartTime := a, lastStepTime := b } } :=
        ⟨_, rfl, by rw [hl]; exact ⟨a, b, rfl, hb⟩⟩
      simp only [hl]
      simp only [calculateStepSize_clock, BacktestEngine.skipLadderStep]
      split_ifs with hc1 hc2 hc3
      · exact hS
      · exact hS
      · refine ⟨_, rfl, ?_⟩
        rcases hb with rfl | ⟨hrec, hlt⟩
        · exact ⟨a, l1.lastStepTime, rfl, Or.inl rfl⟩
        · exact ⟨a, b, rfl, Or.inr ⟨hrec, hlt⟩⟩
      · refine ⟨_, rfl, ?_⟩
        exact ⟨a, tick.timestamp, rfl, Or.inl rfl⟩

/-- Ladder sell-step execution preserves the clock-difference relation. -/
theorem executeLadderSellStep_rel (config : BacktestConfig) (tick : PriceTick)
    (step : LadderStep) {s1 s2 : BacktestEngine.EngineState}
    (h : BacktestEngine.StateRel s1 s2) :
    BacktestEngine.StateRel (BacktestEngine.executeLadderSellStep config tick step s1)
      (BacktestEngine.executeLadderSellStep config tick step s2) := by
  obtain ⟨o, rfl, ho⟩ := h
  unfold BacktestEngine.executeLadderSellStep
  rcases hl : s1.ladderState with _ | l1
  · rcases o with _ | l2
    · simp only [hl]
      exact ⟨none, rfl, ho⟩
    · rw [hl] at ho
      exact False.elim ho
  · rcases o with _ | l2
    · rw [hl] at ho
      exact False.elim ho
    · rw [hl] at ho
      obtain ⟨a, b, rfl, hb⟩ := ho
      have hS : BacktestEngine.StateRel s1
          { s1 with ladderState := some { l1 with ladderStartTime := a, lastStepTime := b } } :=
        ⟨_, rfl, by rw [hl]; exact ⟨a, b, rfl, hb⟩⟩
      simp only [hl]
      simp only [calculateStepSize_clock, BacktestEngine.skipLadderStep]
      split_ifs with hc1 hc2 hc3 hc4 hc5
      · exact hS
      · exact hS
      · refine ⟨_, rfl, ?_⟩
        rcases hb with rfl | ⟨hrec, hlt⟩
        · exact ⟨a, l1.lastStepTime, rfl, Or.inl rfl⟩
        · exact ⟨a, b, rfl, Or.inr ⟨hrec, hlt⟩⟩
      · rcases hb with rfl | ⟨hrec, hlt⟩
        · refine checkCompoundLimit_rel config ?_
          refine StateRel_setLadder (recordLadderTrade_rel _ ?_) _ _ ?_
          · refine ⟨_, rfl, ?_⟩
            exact ⟨a, l1.lastStepTime, rfl, Or.inl rfl⟩
          · exact ⟨a, tick.timestamp, rfl, Or.inl rfl⟩
        · exact absurd (Or.inr hlt) hc3
      · rcases hb with rfl | ⟨hrec, hlt⟩
        · refine checkCompoundLimit_rel config ?_
          refine StateRel_setLadder (recordLadderTrade_rel _ ?_) _ _ ?_
          · refine ⟨_, rfl, ?_⟩
            exact ⟨a, l1.lastStepTime, rfl, Or.inl rfl⟩
          · exact ⟨a, tick.timestamp, rfl, Or.inl rfl⟩
        · exact absurd (Or.inr hlt) hc3
      · rcases hb with rfl | ⟨hrec, hlt⟩
        · refine checkCompoundLimit_rel config ?_
          refine StateRel_setLadder (recordLadderTrade_rel _ ?_) _ _ ?_
          · refine ⟨_, rfl, ?_⟩
            exact ⟨a, l1.lastStepTime, rfl, Or.inl rfl⟩
          · exact ⟨a, tick.timestamp, rfl, Or.inl rfl⟩
        · exact absurd (Or.inr hlt) hc3
      · rcases hb with rfl | ⟨hrec, hlt⟩
        · refine checkCompoundLimit_rel config ?_
          refine StateRel_setLadder (recordLadderTrade_rel _ ?_) _ _ ?_
          · refine ⟨_, rfl, ?_⟩
            exact ⟨a, l1.lastStepTime, rfl, Or.inl rfl⟩
          · exact ⟨a, tick.timestamp, rfl, Or.inl rfl⟩
        · exact absurd (Or.inr hlt) hc3

/-- Ladder stop-loss execution preserves the clock-difference relation,
for any two wall-clock readings. -/
theorem executeLadderStopLoss_rel (config : BacktestConfig) (d1 d2 : ℤ) (tick : PriceTick)
    (step : LadderStep) {s1 s2 : BacktestEngine.EngineState}
    (h : BacktestEngine.StateRel s1 s2) :
    BacktestEngine.StateRel (BacktestEngine.executeLadderStopLoss config d1 tick step s1)
      (BacktestEngine.executeLadderStopLoss config d2 tick step s2) := by
  obtain ⟨o, rfl, ho⟩ := h
  unfold BacktestEngine.executeLadderStopLoss
  rcases hl : s1.ladderState with _ | l1
  · rcases o with _ | l2
    · simp only [hl]
      exact ⟨none, rfl, ho⟩
    · rw [hl] at ho
      exact False.elim ho
  · rcases o with _ | l2
    · rw [hl] at ho
      exact False.elim ho
    · rw [hl] at ho
      obtain ⟨a, b, rfl, hb⟩ := ho
      simp only [hl]
      simp only [getOpenLadderShares_clock, BacktestEngine.resetLadderState]
      split_ifs with hc1 hc2
      · refine ⟨_, rfl, ?_⟩
        exact ⟨a, d2, rfl, Or.inr ⟨rfl, by norm_num⟩⟩
      · rcases hb with rfl | ⟨hrec, hlt⟩
        · refine StateRel_setLockLad (checkCompoundLimit_rel config (recordLadderTrade_rel _ ?_)) _ _ _ ?_
          · refine ⟨_, rfl, ?_⟩
            exact ⟨a, l1.lastStepTime, rfl, Or.inl rfl⟩
          · exact ⟨a, d2, rfl, Or.inr ⟨rfl, by norm_num⟩⟩
        · refine absurd ?_ hc1
          unfold BacktestEngine.getOpenLadderShares
          exact max_lt (by norm_num) hlt
      · rcases hb with rfl | ⟨hrec, hlt⟩
        · refine StateRel_setLockLad (checkCompoundLimit_rel config (recordLadderTrade_rel _ ?_)) _ _ _ ?_
          · refine ⟨_, rfl, ?_⟩
            exact ⟨a, l1.lastStepTime, rfl, Or.inl rfl⟩
          · exact ⟨a, d2, rfl, Or.inr ⟨rfl, by norm_num⟩⟩
        · refine absurd ?_ hc1
          unfold BacktestEngine.getOpenLadderShares
          exact max_lt (by norm_num) hlt

/-- getActiveStep changes nothing but currentStepIndex. -/
theorem getActiveStep_shape (l : BacktestEngine.LadderState) (steps : List LadderStep) :
    ∃ k, (BacktestEngine.getActiveStep l steps).1 = { l with currentStepIndex := k } := by
  induction l, steps using BacktestEngine.getActiveStep.induct with
  | case1 l steps c d e ih =>
    obtain ⟨k, hk⟩ := ih
    refine ⟨k, ?_⟩
    rw [BacktestEngine.getActiveStep]
    simp only [dif_pos c]
    rw [if_pos e]
    rw [hk]
  | case2 l steps c d e f ih =>
    obtain ⟨k, hk⟩ := ih
    refine ⟨k, ?_⟩
    rw [BacktestEngine.getActiveStep]
    simp only [dif_pos c]
    rw [if_neg e, if_pos f]
    rw [hk]
  | case3 l steps c d e f g ih =>
    obtain ⟨k, hk⟩ := ih
    refine ⟨k, ?_⟩
    rw [BacktestEngine.getActiveStep]
    simp only [dif_pos c]
    rw [if_neg e, if_neg f, if_pos g]
    rw [hk]
  | case4 l steps c d e f g =>
    refine ⟨l.currentStepIndex, ?_⟩
    rw [BacktestEngine.getActiveStep]
    simp only [dif_pos c]
    rw [if_neg e, if_neg f, if_neg g]
  | case5 l steps c =>
    refine ⟨l.currentStepIndex, ?_⟩
    rw [BacktestEngine.getActiveStep]
    simp only [dif_neg c]

/-- Step dispatch (completion bookkeeping and buy/sell execution on the
next actionable step) preserves the clock-difference relation. -/
theorem stepDispatch_rel (config : BacktestConfig) (tick : PriceTick)
    (ladderSteps : List LadderStep) {s1 s2 : BacktestEngine.EngineState}
    (h : BacktestEngine.StateRel s1 s2) :
    BacktestEngine.StateRel (BacktestEngine.stepDispatch config tick ladderSteps s1)
      (BacktestEngine.stepDispatch config tick ladderSteps s2) := by
  obtain ⟨o, rfl, ho⟩ := h
  unfold BacktestEngine.stepDispatch
  rcases hl : s1.ladderState with _ | l1
  · rcases o with _ | l2
    · simp only [hl]
      exact ⟨none, rfl, ho⟩
    · rw [hl] at ho
      exact False.elim ho
  · rcases o with _ | l2
    · rw [hl] at ho
      exact False.elim ho
    · rw [hl] at ho
      obtain ⟨a, b, rfl, hb⟩ := ho
      simp only [hl]
      simp only [getActiveStep_clock]
      obtain ⟨k, hk⟩ := getActiveStep_shape l1 ladderSteps
      rw [hk]
      rcases hns : (BacktestEngine.getActiveStep l1 ladderSteps).2 with _ | nstep
      · simp only [hns]
        split_ifs with h1 h2
        · exact ⟨none, rfl, trivial⟩
        · refine ⟨_, rfl, ?_⟩
          exact ⟨a, b, rfl, hb⟩
        · refine ⟨_, rfl, ?_⟩
          exact ⟨a, b, rfl, hb⟩
      · simp only [hns]
        cases hph : l1.currentStepPhase with
        | buy =>
          simp only [hph]
          split_ifs with h1
          · exact executeLadderBuyStep_rel config tick nstep ⟨_, rfl, ⟨a, b, rfl, hb⟩⟩
          · refine ⟨_, rfl, ?_⟩
            exact ⟨a, b, rfl, hb⟩
        | sell =>
          simp only [hph]
          split_ifs with h1
          · exact executeLadderSellStep_rel config tick nstep ⟨_, rfl, ⟨a, b, rfl, hb⟩⟩
          · refine ⟨_, rfl, ?_⟩
            exact ⟨a, b, rfl, hb⟩

/-- The status check and recovery gate (and onward step dispatch)
preserve the clock-difference relation. -/
theorem ladderStepLogic_rel (config : BacktestConfig) (tick : PriceTick)
    (ladderSteps : List LadderStep) {s1 s2 : BacktestEngine.EngineState}
    (h : BacktestEngine.StateRel s1 s2) :
    BacktestEngine.StateRel (BacktestEngine.ladderStepLogic config tick ladderSteps s1)
      (BacktestEngine.ladderStepLogic config tick ladderSteps s2) := by
  obtain ⟨o, rfl, ho⟩ := h
  unfold BacktestEngine.ladderStepLogic
  rcases hl : s1.ladderState with _ | l1
  · rcases o with _ | l2
    · simp only [hl]
      exact ⟨none, rfl, ho⟩
    · rw [hl] at ho
      exact False.elim ho
  · rcases o with _ | l2
    · rw [hl] at ho
      exact False.elim ho
    · rw [hl] at ho
      obtain ⟨a, b, rfl, hb⟩ := ho
      have hS : BacktestEngine.StateRel s1
          { s1 with ladderState := some { l1 with ladderStartTime := a, lastStepTime := b } } :=
        ⟨_, rfl, by rw [hl]; exact ⟨a, b, rfl, hb⟩⟩
      simp only [hl]
      split_ifs with h1 h2
      · exact hS
      · rcases hf : ladderSteps.find? (fun st => st.enabled) with _ | fb
        · simp only [hf]
          exact hS
        · simp only [hf]
          split_ifs with h3
          · exact stepDispatch_rel config tick ladderSteps
              ⟨_, rfl, ⟨a, tick.timestamp, rfl, Or.inl rfl⟩⟩
          · exact hS
      · exact stepDispatch_rel config tick ladderSteps hS

/-- Ladder-state tick processing preserves the clock-difference relation,
for any two wall-clock readings. -/
theorem processLadderStateTick_rel (config : BacktestConfig) (d1 d2 : ℤ) (tick : PriceTick)
    (ladderSteps : List LadderStep) {s1 s2 : BacktestEngine.EngineState}
    (h : BacktestEngine.StateRel s1 s2) :
    BacktestEngine.StateRel (BacktestEngine.processLadderStateTick config d1 tick ladderSteps s1)
      (BacktestEngine.processLadderStateTick config d2 tick ladderSteps s2) := by
  obtain ⟨o, rfl, ho⟩ := h
  unfold BacktestEngine.processLadderStateTick
  rcases hl : s1.ladderState with _ | l1
  · rcases o with _ | l2
    · simp only [hl]
      exact ⟨none, rfl, ho⟩
    · rw [hl] at ho
      exact False.elim ho
  · rcases o with _ | l2
    · rw [hl] at ho
      exact False.elim ho
    · rw [hl] at ho
      obtain ⟨a, b, rfl, hb⟩ := ho
      have hS : BacktestEngine.StateRel s1
          { s1 with ladderState := some { l1 with ladderStartTime := a, lastStepTime := b } } :=
        ⟨_, rfl, by rw [hl]; exact ⟨a, b, rfl, hb⟩⟩
      simp only [hl]
      simp only [getOpenLadderShares_clock, getActiveStopLossStep_clock]
      rcases hsl : BacktestEngine.getActiveStopLossStep l1 ladderSteps with _ | sls
      · simp only [hsl]
        exact ladderStepLogic_rel config tick ladderSteps hS
      · simp only [hsl]
        split_ifs with h1
        · exact executeLadderStopLoss_rel config d1 d2 tick sls hS
        · exact ladderStepLogic_rel config tick ladderSteps hS

/-- Ladder-mode tick routing (including new-ladder creation) preserves the
clock-difference relation, for any two wall-clock readings. -/
theorem processLadderTick_rel (config : BacktestConfig) (d1 d2 : ℤ) (tick : PriceTick)
    (market : HistoricalMarket) {s1 s2 : BacktestEngine.EngineState}
    (h : BacktestEngine.StateRel s1 s2) :
    BacktestEngine.StateRel (BacktestEngine.processLadderTick config d1 tick market s1)
      (BacktestEngine.processLadderTick config d2 tick market s2) := by
  obtain ⟨o, rfl, ho⟩ := h
  unfold BacktestEngine.processLadderTick
  dsimp only
  by_cases h0 : config.ladderSteps = []
  · rw [if_pos h0, if_pos h0]
    exact ⟨o, rfl, ho⟩
  · rw [if_neg h0, if_neg h0]
    rcases hl : s1.ladderState with _ | l1
    · rcases o with _ | l2
      · simp only [hl]
        by_cases h1 : s1.balance < 1
        · rw [if_pos h1, if_pos h1]
          exact ⟨none, rfl, ho⟩
        · rw [if_neg h1, if_neg h1]
          by_cases h2 : market.slug ∈ s1.ladderMarketLocks
          · rw [if_pos h2, if_pos h2]
            exact ⟨none, rfl, ho⟩
          · rw [if_neg h2, if_neg h2]
            by_cases h3 : market.endDate - tick.timestamp ≤ 0 ∨
                market.endDate - tick.timestamp > config.timeWindowMs
            · rw [if_pos h3, if_pos h3]
              exact ⟨none, rfl, ho⟩
            · rw [if_neg h3, if_neg h3]
              by_cases h4 : tick.bestAsk - tick.bestBid > config.maxSpread
              · rw [if_pos h4, if_pos h4]
                exact ⟨none, rfl, ho⟩
              · rw [if_neg h4, if_neg h4]
                by_cases h5 : tick.bestAsk < config.entryThreshold ∨
                    tick.bestAsk > config.maxEntryPrice
                · rw [if_pos h5, if_pos h5]
                  exact ⟨none, rfl, ho⟩
                · rw [if_neg h5, if_neg h5]
                  by_cases h6 : BacktestEngine.isLastTradeWin s1.lastTrade market.slug
                      (BacktestEngine.sideFor tick market) = true
                  · rw [if_pos h6, if_pos h6]
                    exact ⟨none, rfl, ho⟩
                  · rw [if_neg h6, if_neg h6]
                    rcases hf : config.ladderSteps.find? (fun st => st.enabled) with _ | fes
                    · simp only [hf]
                      exact ⟨none, rfl, ho⟩
                    · simp only [hf]
                      by_cases h7 : tick.bestAsk < fes.buy.triggerPrice
                      · rw [if_pos h7, if_pos h7]
                        exact ⟨none, rfl, ho⟩
                      · rw [if_neg h7, if_neg h7]
                        by_cases h8 : |tick.bestAsk - fes.buy.triggerPrice| ≤ 0.005
                        · rw [if_pos h8, if_pos h8]
                          exact executeLadderBuyStep_rel config tick fes
                            ⟨_, rfl, ⟨d2, tick.timestamp, rfl, Or.inl rfl⟩⟩
                        · rw [if_neg h8, if_neg h8]
                          refine ⟨_, rfl, ?_⟩
                          exact ⟨d2, tick.timestamp, rfl, Or.inl rfl⟩
      · rw [hl] at ho
        exact False.elim ho
    · rcases o with _ | l2
      · rw [hl] at ho
        exact False.elim ho
      · rw [hl] at ho
        obtain ⟨a, b, rfl, hb⟩ := ho
        have hS : BacktestEngine.StateRel s1
            { s1 with ladderState := some { l1 with ladderStartTime := a, lastStepTime := b } } :=
          ⟨_, rfl, by rw [hl]; exact ⟨a, b, rfl, hb⟩⟩
        simp only [hl]
        by_cases htok : tick.tokenId ≠ l1.tokenId
        · rw [if_pos htok, if_pos htok]
          exact hS
        · rw [if_neg htok, if_neg htok]
          exact processLadderStateTick_rel config d1 d2 tick config.ladderSteps hS

/-- Tick processing preserves the clock-difference relation, for any two
wall-clock readings. -/
theorem processTick_rel (config : BacktestConfig) (d1 d2 : ℤ) (tick : PriceTick)
    (market : HistoricalMarket) {s1 s2 : BacktestEngine.EngineState}
    (h : BacktestEngine.StateRel s1 s2) :
    BacktestEngine.StateRel (BacktestEngine.processTick config d1 tick market s1)
      (BacktestEngine.processTick config d2 tick market s2) := by
  obtain ⟨o, rfl, ho⟩ := h
  unfold BacktestEngine.processTick
  dsimp only
  by_cases hmode : config.riskMode = RiskMode.ladder
  · rw [if_pos hmode, if_pos hmode]
    exact processLadderTick_rel config d1 d2 tick market ⟨o, rfl, ho⟩
  · rw [if_neg hmode, if_neg hmode]
    rcases hp : s1.position with _ | pos
    · simp only [hp]
      have hN : BacktestEngine.StateRel s1 { s1 with position := none, ladderState := o } :=
        ⟨o, by rw [← hp], ho⟩
      by_cases hbal : s1.balance ≥ 1
      · rw [if_pos hbal, if_pos hbal]
        exact checkEntry_rel config tick market hN
      · rw [if_neg hbal, if_neg hbal]
        exact hN
    · simp only [hp]
      have hP : BacktestEngine.StateRel s1 { s1 with position := some pos, ladderState := o } :=
        ⟨o, by rw [← hp], ho⟩
      by_cases h1 : pos.tokenId = tick.tokenId
      · rw [if_pos h1, if_pos h1]
        by_cases h2 : tick.bestBid ≥ config.profitTarget
        · rw [if_pos h2, if_pos h2]
          exact executeExit_rel config _ _ _ hP
        · rw [if_neg h2, if_neg h2]
          exact checkStopLoss_rel config tick hP
      · rw [if_neg h1, if_neg h1]
        exact hP

/-- The position-expiry block at the top of the run loop preserves the
pair relation. -/
theorem runBlockPos_rel (config : BacktestConfig) (markets : List HistoricalMarket)
    (tick : PriceTick) {t1 t2 : BacktestEngine.EngineState} {e1 e2 : List String}
    (h : BacktestEngine.StateRel t1 t2) (he : e1 = e2) :
    BacktestEngine.PairRel
      (match t1.position with
       | some position =>
         if position.marketSlug ∈ e1 then (t1, e1)
         else
           match BacktestEngine.mapGet markets position.marketSlug with
           | some positionMarket =>
             if positionMarket.endDate ≤ tick.timestamp then
               (BacktestEngine.closePositionAtExpiry config positionMarket t1,
                BacktestEngine.addExpired positionMarket.slug e1)
             else (t1, e1)
           | none => (t1, e1)
       | none => (t1, e1))
      (match t2.position with
       | some position =>
         if position.marketSlug ∈ e2 then (t2, e2)
         else
           match BacktestEngine.mapGet markets position.marketSlug with
           | some positionMarket =>
             if positionMarket.endDate ≤ tick.timestamp then
               (BacktestEngine.closePositionAtExpiry config positionMarket t2,
                BacktestEngine.addExpired positionMarket.slug e2)
             else (t2, e2)
           | none => (t2, e2)
       | none => (t2, e2)) := by
  subst he
  obtain ⟨o, rfl, ho⟩ := h
  dsimp only
  rcases hp : t1.position with _ | p
  · simp only [hp]
    exact ⟨⟨o, by rw [← hp], ho⟩, rfl⟩
  · simp only [hp]
    have hP : BacktestEngine.StateRel t1 { t1 with position := some p, ladderState := o } :=
      ⟨o, by rw [← hp], ho⟩
    split_ifs with h1
    · exact ⟨hP, rfl⟩
    · rcases hm : BacktestEngine.mapGet markets p.marketSlug with _ | pm
      · simp only [hm]
        exact ⟨hP, rfl⟩
      · simp only [hm]
        split_ifs with h2
        · exact ⟨closePositionAtExpiry_rel config pm hP, rfl⟩
        · exact ⟨hP, rfl⟩

/-- The ladder-expiry block of the run loop preserves the pair relation. -/
theorem runBlockLadder_rel (config : BacktestConfig) (markets : List HistoricalMarket)
    (tick : PriceTick) {t1 t2 : BacktestEngine.EngineState} {e1 e2 : List String}
    (h : BacktestEngine.StateRel t1 t2) (he : e1 = e2) :
    BacktestEngine.PairRel
      (match t1.ladderState with
       | some l =>
         if l.marketSlug ∈ e1 then (t1, e1)
         else
           match BacktestEngine.mapGet markets l.marketSlug with
           | some ladderMarket =>
             if ladderMarket.endDate ≤ tick.timestamp then
               (BacktestEngine.closeLadderAtExpiry config ladderMarket t1,
                BacktestEngine.addExpired ladderMarket.slug e1)
             else (t1, e1)
           | none => (t1, e1)
       | none => (t1, e1))
      (match t2.ladderState with
       | some l =>
         if l.marketSlug ∈ e2 then (t2, e2)
         else
           match BacktestEngine.mapGet markets l.marketSlug with
           | some ladderMarket =>
             if ladderMarket.endDate ≤ tick.timestamp then
               (BacktestEngine.closeLadderAtExpiry config ladderMarket t2,
                BacktestEngine.addExpired ladderMarket.slug e2)
             else (t2, e2)
           | none => (t2, e2)
       | none => (t2, e2)) := by
  subst he
  obtain ⟨o, rfl, ho⟩ := h
  dsimp only
  rcases hl : t1.ladderState with _ | l1
  · rcases o with _ | l2
    · simp only [hl]
      exact ⟨⟨none, rfl, ho⟩, rfl⟩
    · rw [hl] at ho
      exact False.elim ho
  · rcases o with _ | l2
    · rw [hl] at ho
      exact False.elim ho
    · rw [hl] at ho
      obtain ⟨a, b, rfl, hb⟩ := ho
      have hS : BacktestEngine.StateRel t1
          { t1 with ladderState := some { l1 with ladderStartTime := a, lastStepTime := b } } :=
        ⟨_, rfl, by rw [hl]; exact ⟨a, b, rfl, hb⟩⟩
      simp only [hl]
      split_ifs with h1
      · exact ⟨hS, rfl⟩
      · rcases hm : BacktestEngine.mapGet markets l1.marketSlug with _ | lm
        · simp only [hm]
          exact ⟨hS, rfl⟩
        · simp only [hm]
          split_ifs with h2
          · exact ⟨closeLadderAtExpiry_rel config lm hS, rfl⟩
          · exact ⟨hS, rfl⟩

/-- The expiry-or-process tail of the run loop preserves the pair
relation, for any two wall-clock readings. -/
theorem runBlockFinal_rel (config : BacktestConfig) (d1 d2 : ℤ) (tick : PriceTick)
    (market : HistoricalMarket) {t1 t2 : BacktestEngine.EngineState} {e1 e2 : List String}
    (h : BacktestEngine.StateRel t1 t2) (he : e1 = e2) :
    BacktestEngine.PairRel
      (if market.slug ∈ e1 then (t1, e1)
       else if market.endDate ≤ tick.timestamp then
         (let s :=
            match t1.position with
            | some position =>
              if position.marketSlug = market.slug then
                BacktestEngine.closePositionAtExpiry config market t1
              else t1
            | none => t1
          let s :=
            match s.ladderState with
            | some l =>
              if l.marketSlug = market.slug then
                BacktestEngine.closeLadderAtExpiry config market s
              else s
            | none => s
          (s, BacktestEngine.addExpired market.slug e1))
       else (BacktestEngine.processTick config d1 tick market t1, e1))
      (if market.slug ∈ e2 then (t2, e2)
       else if market.endDate ≤ tick.timestamp then
         (let s :=
            match t2.position with
            | some position =>
              if position.marketSlug = market.slug then
                BacktestEngine.closePositionAtExpiry config market t2
              else t2
            | none => t2
          let s :=
            match s.ladderState with
            | some l =>
              if l.marketSlug = market.slug then
                BacktestEngine.closeLadderAtExpiry config market s
              else s
            | none => s
          (s, BacktestEngine.addExpired market.slug e2))
       else (BacktestEngine.processTick config d2 tick market t2, e2)) := by
  subst he
  obtain ⟨o, rfl, ho⟩ := h
  dsimp only
  by_cases hmem : market.slug ∈ e1
  · rw [if_pos hmem, if_pos hmem]
    exact ⟨⟨o, rfl, ho⟩, rfl⟩
  · rw [if_neg hmem, if_neg hmem]
    by_cases hend : market.endDate ≤ tick.timestamp
    · rw [if_pos hend, if_pos hend]
      rcases hp : t1.position with _ | p
      · simp only [hp]
        rcases hl : t1.ladderState with _ | l1
        · rcases o with _ | l2
          · simp only [hl]
            exact ⟨⟨none, by rw [← hp], by rw [hl]; trivial⟩, rfl⟩
          · rw [hl] at ho
            exact False.elim ho
        · rcases o with _ | l2
          · rw [hl] at ho
            exact False.elim ho
          · rw [hl] at ho
            obtain ⟨a, b, rfl, hb⟩ := ho
            have hS : BacktestEngine.StateRel t1 { t1 with position := none, ladderState := some { l1 with ladderStartTime := a, lastStepTime := b } } :=
              ⟨_, by rw [← hp], by rw [hl]; exact ⟨a, b, rfl, hb⟩⟩
            simp only [hl]
            by_cases hsl : l1.marketSlug = market.slug
            · rw [if_pos hsl, if_pos hsl]
              exact ⟨closeLadderAtExpiry_rel config market hS, rfl⟩
            · rw [if_neg hsl, if_neg hsl]
              exact ⟨hS, rfl⟩
      · simp only [hp]
        have hP : BacktestEngine.StateRel t1
            { t1 with position := some p, ladderState := o } :=
          ⟨o, by rw [← hp], ho⟩
        by_cases hps : p.marketSlug = market.slug
        · rw [if_pos hps, if_pos hps]
          simp only [closePositionAtExpiry_lad]
          rcases hl : t1.ladderState with _ | l1
          · rcases o with _ | l2
            · simp only [hl]
              exact ⟨closePositionAtExpiry_rel config market hP, rfl⟩
            · rw [hl] at ho
              exact False.elim ho
          · rcases o with _ | l2
            · rw [hl] at ho
              exact False.elim ho
            · rw [hl] at ho
              obtain ⟨a, b, rfl, hb⟩ := ho
              simp only [hl]
              by_cases hsl : l1.marketSlug = market.slug
              · rw [if_pos hsl, if_pos hsl]
                exact ⟨closeLadderAtExpiry_rel config market
                  (closePositionAtExpiry_rel config market hP), rfl⟩
              · rw [if_neg hsl, if_neg hsl]
                exact ⟨closePositionAtExpiry_rel config market hP, rfl⟩
        · rw [if_neg hps, if_neg hps]
          rcases hl : t1.ladderState with _ | l1
          · rcases o with _ | l2
            · simp only [hl]
              exact ⟨hP, rfl⟩
            · rw [hl] at ho
              exact False.elim ho
          · rcases o with _ | l2
            · rw [hl] at ho
              exact False.elim ho
            · rw [hl] at ho
              obtain ⟨a, b, rfl, hb⟩ := ho
              have hS : BacktestEngine.StateRel t1 { t1 with position := some p, ladderState := some { l1 with ladderStartTime := a, lastStepTime := b } } :=
                ⟨_, by rw [← hp], by rw [hl]; exact ⟨a, b, rfl, hb⟩⟩
              simp only [hl]
              by_cases hsl : l1.marketSlug = market.slug
              · rw [if_pos hsl, if_pos hsl]
                exact ⟨closeLadderAtExpiry_rel config market hS, rfl⟩
              · rw [if_neg hsl, if_neg hsl]
                exact ⟨hS, rfl⟩
    · rw [if_neg hend, if_neg hend]
      exact ⟨processTick_rel config d1 d2 tick market ⟨o, rfl, ho⟩, rfl⟩

/-- One iteration of the run loop preserves the pair relation, for any
two wall-clock readings. -/
theorem runTickStep_rel (config : BacktestConfig) (d1 d2 : ℤ) (markets : List HistoricalMarket)
    {s1 s2 : BacktestEngine.EngineState} {e1 e2 : List String}
    (h : BacktestEngine.StateRel s1 s2) (he : e1 = e2) (tm : PriceTick × HistoricalMarket) :
    BacktestEngine.PairRel (BacktestEngine.runTickStep config d1 markets (s1, e1) tm)
      (BacktestEngine.runTickStep config d2 markets (s2, e2) tm) := by
  obtain ⟨tick, market⟩ := tm
  unfold BacktestEngine.runTickStep
  dsimp only
  have h1 := runBlockPos_rel config markets tick h he
  have h2 := runBlockLadder_rel config markets tick h1.1 h1.2
  exact runBlockFinal_rel config d1 d2 tick market h2.1 h2.2

/-- The whole tick fold preserves the pair relation, for any two
wall-clock readings. -/
theorem runFold_rel (config : BacktestConfig) (d1 d2 : ℤ) (markets : List HistoricalMarket)
    (l : List (PriceTick × HistoricalMarket)) :
    ∀ {p1 p2 : BacktestEngine.EngineState × List String}, BacktestEngine.PairRel p1 p2 →
    BacktestEngine.PairRel (l.foldl (BacktestEngine.runTickStep config d1 markets) p1)
      (l.foldl (BacktestEngine.runTickStep config d2 markets) p2) := by
  induction l with
  | nil => exact fun h => h
  | cons tm rest ih =>
    intro p1 p2 h
    simp only [List.foldl_cons]
    refine ih ?_
    obtain ⟨x1, e1⟩ := p1
    obtain ⟨x2, e2⟩ := p2
    exact runTickStep_rel config d1 d2 markets h.1 h.2 tm

/-- The end-of-run force close preserves the clock-difference relation. -/
theorem finalClose_rel (config : BacktestConfig) (markets : List HistoricalMarket)
    {s1 s2 : BacktestEngine.EngineState} (h : BacktestEngine.StateRel s1 s2) :
    BacktestEngine.StateRel (BacktestEngine.finalClose config markets s1)
      (BacktestEngine.finalClose config markets s2) := by
  obtain ⟨o, rfl, ho⟩ := h
  unfold BacktestEngine.finalClose
  dsimp only
  rcases hp : s1.position with _ | p
  · simp only [hp]
    rcases hl : s1.ladderState with _ | l1
    · rcases o with _ | l2
      · simp only [hl]
        exact ⟨none, by rw [← hp], by rw [hl]; trivial⟩
      · rw [hl] at ho
        exact False.elim ho
    · rcases o with _ | l2
      · rw [hl] at ho
        exact False.elim ho
      · rw [hl] at ho
        obtain ⟨a, b, rfl, hb⟩ := ho
        have hS : BacktestEngine.StateRel s1 { s1 with position := none, ladderState := some { l1 with ladderStartTime := a, lastStepTime := b } } :=
          ⟨_, by rw [← hp], by rw [hl]; exact ⟨a, b, rfl, hb⟩⟩
        simp only [hl]
        rcases hm : BacktestEngine.mapGet markets l1.marketSlug with _ | lm
        · simp only [hm]
          exact hS
        · simp only [hm]
          exact closeLadderAtExpiry_rel config lm hS
  · simp only [hp]
    have hP : BacktestEngine.StateRel s1 { s1 with position := some p, ladderState := o } :=
      ⟨o, by rw [← hp], ho⟩
    rcases hpm : BacktestEngine.mapGet markets p.marketSlug with _ | pm
    · simp only [hpm]
      rcases hl : s1.ladderState with _ | l1
      · rcases o with _ | l2
        · simp only [hl]
          exact hP
        · rw [hl] at ho
          exact False.elim ho
      · rcases o with _ | l2
        · rw [hl] at ho
          exact False.elim ho
        · rw [hl] at ho
          obtain ⟨a, b, rfl, hb⟩ := ho
          have hS : BacktestEngine.StateRel s1 { s1 with position := some p, ladderState := some { l1 with ladderStartTime := a, lastStepTime := b } } :=
            ⟨_, by rw [← hp], by rw [hl]; exact ⟨a, b, rfl, hb⟩⟩
          simp only [hl]
          rcases hm : BacktestEngine.mapGet markets l1.marketSlug with _ | lm
          · simp only [hm]
            exact hS
          · simp only [hm]
            exact closeLadderAtExpiry_rel config lm hS
    · simp only [hpm]
      simp only [closePositionAtExpiry_lad]
      rcases hl : s1.ladderState with _ | l1
      · rcases o with _ | l2
        · simp only [hl]
          exact closePositionAtExpiry_rel config pm hP
        · rw [hl] at ho
          exact False.elim ho
      · rcases o with _ | l2
        · rw [hl] at ho
          exact False.elim ho
        · rw [hl] at ho
          obtain ⟨a, b, rfl, hb⟩ := ho
          simp only [hl]
          rcases hm : BacktestEngine.mapGet markets l1.marketSlug with _ | lm
          · simp only [hm]
            exact closePositionAtExpiry_rel config pm hP
          · simp only [hm]
            exact closeLadderAtExpiry_rel config lm (closePositionAtExpiry_rel config pm hP)

/-- C1: the replay engine is deterministic: its result does not depend on
the wall clock (the only non-input source read during a run), so two runs
on the same config and markets produce identical trades, metrics, curves
and balances; and the tick sequence it folds over is the merge of all
market ticks into one globally time-ordered (stably sorted) sequence. -/
theorem run_deterministic_and_merge_sorted (sqrtQ : ℚ → ℚ) (d1 d2 : ℤ)
    (config : BacktestConfig) (markets : List HistoricalMarket) :
    BacktestEngine.run sqrtQ d1 config markets = BacktestEngine.run sqrtQ d2 config markets ∧
    (BacktestEngine.allTicksSorted markets).Pairwise
      (fun a b => a.1.timestamp ≤ b.1.timestamp) ∧
    (BacktestEngine.allTicksSorted markets).Perm (BacktestEngine.allTicks markets) := by
  refine ⟨?_, ?_, ?_⟩
  · have h0 : BacktestEngine.PairRel (BacktestEngine.initialState config, ([] : List String))
        (BacktestEngine.initialState config, ([] : List String)) :=
      ⟨⟨(BacktestEngine.initialState config).ladderState, rfl, OptLadderRel_refl _⟩, rfl⟩
    have h1 := runFold_rel config d1 d2 markets (BacktestEngine.allTicksSorted markets) h0
    have h2 := finalClose_rel config markets h1.1
    obtain ⟨o, heq, ho⟩ := h2
    unfold BacktestEngine.run
    dsimp only
    rw [heq]
  · have h := @List.sorted_mergeSort (PriceTick × HistoricalMarket)
      (fun a b => decide (a.1.timestamp ≤ b.1.timestamp))
      (fun a b c hab hbc => by simp only [decide_eq_true_eq] at hab hbc ⊢; omega)
      (fun a b => by simp only [Bool.or_eq_true, decide_eq_true_eq]; omega)
      (BacktestEngine.allTicks markets)
    exact h.imp (fun hab => by simpa using hab)
  · exact List.mergeSort_perm (BacktestEngine.allTicks markets) _
